import Mathlib

set_option linter.unusedVariables false
set_option maxRecDepth 100000

/-!
Verification of the mp3tool structural scanner (`mp3tool/scanner.py`).

Bytes are modelled as `Nat` values (each `< 256`); Python byte strings as
`List Nat`.  Python code that can raise an exception (assertion failures,
`IOError`, the buffer-size limit) is modelled in `Except String`.  Loops
whose termination is not structural take an explicit fuel argument; running
out of fuel yields `.error "fuel exhausted"`, so `.ok` results correspond
exactly to terminating, non-raising Python executions.
-/

instance {ε α : Type} [DecidableEq ε] [DecidableEq α] : DecidableEq (Except ε α) :=
  fun a b =>
    match a, b with
    | .ok x, .ok y =>
      if h : x = y then isTrue (by rw [h]) else isFalse (by simp [h])
    | .error e, .error f =>
      if h : e = f then isTrue (by rw [h]) else isFalse (by simp [h])
    | .ok _, .error _ => isFalse (by simp)
    | .error _, .ok _ => isFalse (by simp)

/-- ASCII bytes of `"TAG"` (ID3v1 marker). -/
def tagMagic : List Nat := [84, 65, 71]

/-- ASCII bytes of `"ID3"` (ID3v2 header marker). -/
def id3Magic : List Nat := [73, 68, 51]

/-- ASCII bytes of `"3DI"` (ID3v2 footer marker). -/
def id3FooterMagic : List Nat := [51, 68, 73]

/-- Bytes of `"APETAGEX\xd0\x07\x00\x00"`: APEv2 preamble plus version 2000 LE. -/
def apeMagic : List Nat := [65, 80, 69, 84, 65, 71, 69, 88, 208, 7, 0, 0]

/-- ASCII bytes of `"LYRICS200"` (Lyrics3v2 trailing marker). -/
def lyricsMagic : List Nat := [76, 89, 82, 73, 67, 83, 50, 48, 48]

/-- Python `s[-a:-b]` (for the constant `a ≥ b` pairs the scanner uses). -/
def pySliceNeg (s : List Nat) (a b : Nat) : List Nat :=
  (s.drop (s.length - a)).take ((s.length - b) - (s.length - a))

/-- Python `s[-a:]`. -/
def pySuffix (s : List Nat) (a : Nat) : List Nat :=
  s.drop (s.length - a)

/-- Python `s.startswith(pat)`. -/
def pyStartsWith (s pat : List Nat) : Bool :=
  s.take pat.length == pat

/-- Python `s.endswith(pat)`. -/
def pyEndsWith (s pat : List Nat) : Bool :=
  s.drop (s.length - pat.length) == pat

/-- Accumulate the value of a string of ASCII decimal digits. -/
def digitsVal : List Nat → Option Nat → Option Nat
  | [], acc => acc
  | d :: rest, acc =>
    if 48 ≤ d ∧ d ≤ 57 then
      digitsVal rest (acc.map (fun v => v * 10 + (d - 48)))
    else none

/-- Python `int(s)` on a byte string: optional surrounding spaces, an optional
    sign, then one or more decimal digits; anything else raises `ValueError`
    (modelled as `none`).  Note Python's `int` does accept a leading `-`. -/
def pyInt (s : List Nat) : Option Int :=
  let t := ((s.dropWhile (· == 32)).reverse.dropWhile (· == 32)).reverse
  match t with
  | 43 :: rest => if rest = [] then none else (digitsVal rest (some 0)).map Int.ofNat
  | 45 :: rest => if rest = [] then none else (digitsVal rest (some 0)).map (fun n => -(n : Int))
  | _ => if t = [] then none else (digitsVal t (some 0)).map Int.ofNat

/-- Model of scanner.py `Part` and its subclasses (lines 18-64).  The field
    `stop` renders the source's `end` attribute (`end` is a Lean keyword).
    `tagType` holds one of the `Tag.ID3V1/ID3V2/APEV2/LYRICS3V2` strings. -/
inductive MPart
  | audioFrame (start stop : Nat) (errorMessages : List String)
      (layer bitRate mode samplingRate : Nat)
  | tag (start stop : Nat) (tagType : String) (errorMessages : List String)
  | unknownData (start stop : Nat)
deriving DecidableEq, Repr

def MPart.start : MPart → Nat
  | .audioFrame s _ _ _ _ _ _ => s
  | .tag s _ _ _ => s
  | .unknownData s _ => s

def MPart.stop : MPart → Nat
  | .audioFrame _ e _ _ _ _ _ => e
  | .tag _ e _ _ => e
  | .unknownData _ e => e

def MPart.errorMessages : MPart → List String
  | .audioFrame _ _ m _ _ _ _ => m
  | .tag _ _ _ m => m
  | .unknownData _ _ => []

/-- `VerifiablePart.valid` (line 32): true iff no error messages. -/
def MPart.valid (p : MPart) : Bool :=
  p.errorMessages == []

/-- scanner.py `_parse_id3v2_header_footer` (lines 66-83).  The argument always
    has at least 10 bytes at both call sites (Python's `struct.unpack(">3BL",
    header[3:10])` would raise otherwise).  Returns `(flags, length, errors)`;
    error strings are abbreviated (only their presence matters downstream). -/
def parse_id3v2_header_footer (header : List Nat) : Nat × Nat × List String :=
  let major := header.getD 3 0
  let minor := header.getD 4 0
  let flags := header.getD 5 0
  let length0 := header.getD 6 0 * 2 ^ 24 + header.getD 7 0 * 2 ^ 16 +
    header.getD 8 0 * 2 ^ 8 + header.getD 9 0
  let errs := (if 0xff ≤ major then ["invalid major version"] else []) ++
    (if 0xff ≤ minor then ["invalid minor version"] else []) ++
    (if flags &&& 0x0f ≠ 0 then ["invalid flags"] else [])
  let length := (((length0 &&& 0x7f000000) >>> 3) |||
    ((length0 &&& 0x007f0000) >>> 2) |||
    ((length0 &&& 0x00007f00) >>> 1) |||
    (length0 &&& 0x0000007f)) + 10
  let length := if flags &&& 0x10 ≠ 0 then length + 10 else length
  (flags, length, errs)

/-- scanner.py `_parse_apev2_header_footer` (lines 85-96): `struct.unpack` of
    `"<LLLQ"` from `header[12:32]`, flag/reserved validation, and the +32
    header allowance when the contains-header flag bit 0x80000000 is set. -/
def parse_apev2_header_footer (header : List Nat) : Nat × Nat × List String :=
  let length0 := header.getD 12 0 + header.getD 13 0 * 2 ^ 8 +
    header.getD 14 0 * 2 ^ 16 + header.getD 15 0 * 2 ^ 24
  let numItems := header.getD 16 0 + header.getD 17 0 * 2 ^ 8 +
    header.getD 18 0 * 2 ^ 16 + header.getD 19 0 * 2 ^ 24
  let flags := header.getD 20 0 + header.getD 21 0 * 2 ^ 8 +
    header.getD 22 0 * 2 ^ 16 + header.getD 23 0 * 2 ^ 24
  let reserved := header.getD 24 0 + header.getD 25 0 * 2 ^ 8 +
    header.getD 26 0 * 2 ^ 16 + header.getD 27 0 * 2 ^ 24 +
    header.getD 28 0 * 2 ^ 32 + header.getD 29 0 * 2 ^ 40 +
    header.getD 30 0 * 2 ^ 48 + header.getD 31 0 * 2 ^ 56
  let errs := (if flags &&& 0x1ffffff8 ≠ 0 then ["invalid flags"] else []) ++
    (if reserved ≠ 0 then ["reserved section non-zero"] else [])
  let length := if flags &&& 0x80000000 ≠ 0 then length0 + 32 else length0
  (flags, length, errs)

/-- The footer-matching branch chain of `_detect_tags_at_end` (lines 169-203):
    given the up-to-128-byte tail read, returns `none` on no match, otherwise
    `(tag_type, footer_length, length, errors)`.  `length` is an `Int` because
    Python's `int()` accepts a negative Lyrics3v2 length field. -/
def matchFooter (footer : List Nat) (read_len : Nat) :
    Option (String × Nat × Int × List String) :=
  if pyStartsWith footer tagMagic then
    some ("ID3v1", 8, 128, [])
  else if pySliceNeg footer 10 7 == id3FooterMagic then
    let (flags, length, errs) := parse_id3v2_header_footer (pySuffix footer 10)
    let errs := errs ++
      (if flags &&& 0x10 = 0 then ["ID3v2 footer says tag doesn't have a footer"] else [])
    some ("ID3v2", 10, (length : Int), errs)
  else if pySliceNeg footer 32 20 == apeMagic then
    let (flags, length, errs) := parse_apev2_header_footer (pySuffix footer 32)
    if flags &&& 0x40000000 ≠ 0 then
      some ("APEv2", 32, (length : Int),
        errs ++ ["APEv2 footer says tag doesn't have a footer"])
    else if flags &&& 0x20000000 ≠ 0 then
      some ("APEv2", 32, 32,
        errs ++ ["APEv2 header found without footer near end of file, skipping stray header"])
    else
      some ("APEv2", 32, (length : Int), errs)
  else if pyEndsWith footer lyricsMagic ∧ 15 ≤ read_len then
    match pyInt (pySliceNeg footer 15 9) with
    | none => some ("Lyrics3v2", 15, 15, ["invalid Lyrics3v2 length, skipping footer"])
    | some v => some ("Lyrics3v2", 15, v + 15, [])
  else
    none

/-- The `while True` loop of scanner.py `_detect_tags_at_end` (lines 156-213).
    `tags` accumulates in Python append order (most recently matched last);
    the caller reverses.  `.error` covers assertion failures and running out
    of fuel (the Python loop need not terminate; see the APEv2 length-0 case). -/
def detect_tags_at_end_loop (data : List Nat) (fuel : Nat) (file_pos : Nat)
    (tags : List MPart) : Except String (List MPart) :=
  match fuel with
  | 0 => .error "fuel exhausted"
  | fuel + 1 =>
    if file_pos < 10 then .ok tags else
    let read_len := min 128 file_pos
    let footer := (data.drop (file_pos - read_len)).take read_len
    if footer.length ≠ read_len then .error "assertion failed: short read" else
    match matchFooter footer read_len with
    | none => .ok tags
    | some (tag_type, footer_length, length, errs) =>
      if length > (file_pos : Int) then
        if footer_length ≤ read_len then
          let tag_end := file_pos
          let fp2 := file_pos - footer_length
          detect_tags_at_end_loop data fuel fp2
            (tags ++ [MPart.tag fp2 tag_end tag_type
              (errs ++ ["invalid tag length, skipping footer"])])
        else .error "assertion failed: footer_length > read_len"
      else
        let tag_end := file_pos
        let fp2 := ((file_pos : Int) - length).toNat
        detect_tags_at_end_loop data fuel fp2
          (tags ++ [MPart.tag fp2 tag_end tag_type errs])

/-- scanner.py `_detect_tags_at_end` (lines 152-215): start from end of file,
    loop, then reverse into file order. -/
def detect_tags_at_end (fuel : Nat) (data : List Nat) : Except String (List MPart) :=
  (detect_tags_at_end_loop data fuel data.length []).map List.reverse

/-- Lines 257-262 of `scan_mp3`: the first trailing tag's start, or end of
    file when no trailing tags were found — the `limit` handed to the
    `_TruncatingFileWrapper`. -/
def start_of_footer_tags (fuel : Nat) (data : List Nat) : Except String Nat :=
  (detect_tags_at_end fuel data).map (fun parts =>
    match parts with
    | [] => data.length
    | p :: _ => p.start)

/-- A Python binary file object: underlying bytes plus a cursor.  `read`/
    `readinto` return at most the bytes remaining before end of data (reading
    at or past EOF returns the empty string). -/
structure PyFile where
  data : List Nat
  pos : Nat
deriving DecidableEq, Repr

def PyFile.read (f : PyFile) (n : Nat) : List Nat × PyFile :=
  let bytes := (f.data.drop f.pos).take n
  (bytes, { f with pos := f.pos + bytes.length })

/-- scanner.py `_TruncatingFileWrapper` (lines 217-254): a file restricted to
    `[0, truncated_len)`.  `bytes_remaining` is the cached field the source
    maintains alongside the underlying cursor. -/
structure TruncatingFileWrapper where
  file : PyFile
  truncated_len : Nat
  bytes_remaining : Nat
deriving DecidableEq, Repr

/-- `_TruncatingFileWrapper.__init__` (lines 218-224), including its
    `bytes_remaining >= 0` assertion. -/
def TruncatingFileWrapper.make (file : PyFile) (truncated_len : Nat) :
    Except String TruncatingFileWrapper :=
  if truncated_len < file.pos then .error "assertion failed: bytes_remaining < 0"
  else .ok ⟨file, truncated_len, truncated_len - file.pos⟩

/-- `_TruncatingFileWrapper.readinto` (lines 226-236): the view is truncated
    to `bytes_remaining` before reading, so a request that extends past the
    limit is silently shortened, never an error.  Returns the bytes read. -/
def TruncatingFileWrapper.readinto (w : TruncatingFileWrapper) (n : Nat) :
    List Nat × TruncatingFileWrapper :=
  let n2 := min n w.bytes_remaining
  let (bytes, file) := w.file.read n2
  (bytes, { w with file := file, bytes_remaining := w.bytes_remaining - bytes.length })

/-- `_TruncatingFileWrapper.seek` (lines 238-254).  Raises (`.error`) on any
    absolute, relative, or end-relative seek whose target lies past
    `truncated_len`; an (unreachable here) negative target raises in the
    underlying file. -/
def TruncatingFileWrapper.seek (w : TruncatingFileWrapper) (offset : Int) (whence : Nat) :
    Except String TruncatingFileWrapper :=
  let truncated_len := w.truncated_len
  let bytes_remaining := w.bytes_remaining
  if (whence = 0 ∧ (truncated_len : Int) < offset) ∨
      (whence = 1 ∧ (bytes_remaining : Int) < offset) ∨
      (whence = 2 ∧ 0 < offset) then
    .error "IOError: can't seek past EOF of truncated file"
  else
    let wo : Nat × Int :=
      if whence = 2 then (0, (truncated_len : Int) + offset) else (whence, offset)
    if wo.1 = 0 then
      if wo.2 < 0 then .error "IOError: negative seek" else
      .ok { w with
        file := { w.file with pos := wo.2.toNat }
        bytes_remaining := ((truncated_len : Int) - wo.2).toNat }
    else if wo.1 = 1 then
      if (w.file.pos : Int) + wo.2 < 0 then .error "IOError: negative seek" else
      .ok { w with
        file := { w.file with pos := ((w.file.pos : Int) + wo.2).toNat }
        bytes_remaining := ((bytes_remaining : Int) - wo.2).toNat }
    else .error "IOError: invalid whence"

/-- The libmad `mad_stream` cursor state the scanner reads, via the offset
    properties defined in madctypes.py (lines 102-119): `skiplen`, `sync`
    (a C int used as a boolean), `this_frame_offset`, `next_frame_offset`,
    and `buffer_length = bufend - buffer`. -/
structure MadStream where
  skiplen : Nat
  sync : Bool
  this_frame_offset : Nat
  next_frame_offset : Nat
  buffer_length : Nat
deriving DecidableEq, Repr

/-- `mad_stream_init`: a fresh stream has a NULL buffer, so every offset
    property reads 0 and `sync = 0`. -/
def MadStream.start : MadStream := ⟨0, false, 0, 0, 0⟩

/-- Modelled from the spec: `mad_stream_buffer` belongs to the external libmad
    decoder (spec §6: "accept a buffer-handoff call `set_buffer(ptr, length)`
    that resets the decoder's cursor to the start of the given bytes").  It
    records the new buffer length and resets both frame cursors to offset 0;
    per the scanner's own comment (scanner.py lines 286-287), rebuffering also
    resets `sync = 1`.  `skiplen` is untouched — the scanner clears it itself
    (line 498). -/
def mad_stream_buffer (m : MadStream) (length : Nat) : MadStream :=
  { m with
    buffer_length := length
    this_frame_offset := 0
    next_frame_offset := 0
    sync := true }

/-- Modelled from the spec: `mad_stream_skip` is external libmad (spec §6:
    "accepts a `skip(n)` directive to discard n bytes without decoding");
    it adds to the pending skip length, which spec §4.3 describes as "a
    pending skip length not yet reflected in either" frame offset. -/
def mad_stream_skip (m : MadStream) (n : Nat) : MadStream :=
  { m with skiplen := m.skiplen + n }

/-- The window-relative position `get_file_position` selects before clamping
    (scanner.py lines 390-396): the next-frame offset when `for_mad` and the
    stream is synchronized or has nothing pending to skip, otherwise the
    this-frame offset; plus the pending skip length. -/
def MadStream.buf_position (m : MadStream) (for_mad : Bool) : Nat :=
  (if for_mad ∧ (m.sync ∨ m.skiplen = 0) then m.next_frame_offset
   else m.this_frame_offset) + m.skiplen

def INITIAL_BUFFER_SIZE : Nat := 2 ^ 16

def MAX_BUFFER_SIZE : Nat := 2 ^ 20

def MIN_READ_SIZE : Nat := INITIAL_BUFFER_SIZE / 2

def MAD_BUFFER_GUARD : Nat := 8

/-- scanner.py `_MP3Stream` (lines 348-570).  `buf` models the contents of
    the C buffer's slice `[0, mad.buffer_length)` — exactly the bytes handed
    to MAD by the most recent `mad_stream_buffer` call (anything beyond is
    junk the program never reads); `buf_size` is the allocated capacity. -/
structure MP3Stream where
  file : TruncatingFileWrapper
  mad : MadStream
  buf : List Nat
  buf_size : Nat
  buf_file_position : Nat
  buffer_guard_length : Nat
deriving DecidableEq, Repr

/-- `_MP3Stream.__init__` (lines 357-372). -/
def MP3Stream.start (file : TruncatingFileWrapper) : MP3Stream :=
  { file := file
    mad := MadStream.start
    buf := []
    buf_size := INITIAL_BUFFER_SIZE
    buf_file_position := file.file.pos
    buffer_guard_length := 0 }

/-- `_MP3Stream.get_file_position` (lines 374-400), including its assertion
    `buf_position <= buffer_length`.  The result is clamped to exclude the
    buffer guard. -/
def MP3Stream.get_file_position (s : MP3Stream) (for_mad : Bool) : Except String Nat :=
  let buf_position := s.mad.buf_position for_mad
  let buffer_length := s.mad.buffer_length
  if buffer_length < buf_position then
    .error "assertion failed: buf_position > buffer_length"
  else
    .ok (s.buf_file_position + min buf_position (buffer_length - s.buffer_guard_length))

/-- `_MP3Stream.get_frame_start_position` (lines 402-411), with its
    `mad_stream.sync` assertion. -/
def MP3Stream.get_frame_start_position (s : MP3Stream) : Except String Nat :=
  if s.mad.sync then .ok (s.buf_file_position + s.mad.this_frame_offset)
  else .error "assertion failed: stream not synchronized"

/-- `_MP3Stream._ensure_free` (lines 413-432): grow the buffer (doubling, or
    more if needed), failing when the hard cap is exceeded.  In every
    reachable state `bytes_in_buf <= buf_size`, so `Nat` subtraction agrees
    with Python. -/
def MP3Stream.ensure_free (s : MP3Stream) (bytes_in_buf min_bytes_free : Nat) :
    Except String MP3Stream :=
  let bytes_free := s.buf_size - bytes_in_buf
  if bytes_free < min_bytes_free then
    let bytes_needed := min_bytes_free - bytes_free
    let new_buf_size := max (s.buf_size * 2) (s.buf_size + bytes_needed)
    if MAX_BUFFER_SIZE < new_buf_size then
      .error "exceeds max buffer size"
    else .ok { s with buf_size := new_buf_size }
  else .ok s

/-- `_MP3Stream._read_into_buf` (lines 434-441): make room, then read from
    the bounded file into the space after the `num_bytes_in_buf` live bytes
    (at its call site `s.buf` holds exactly those bytes). -/
def MP3Stream.read_into_buf (s : MP3Stream) (num_bytes_in_buf num_additional_bytes_wanted : Nat) :
    Except String (Nat × MP3Stream) := do
  let free_bytes_needed := max num_additional_bytes_wanted MIN_READ_SIZE
  let s ← s.ensure_free num_bytes_in_buf free_bytes_needed
  let append_len := s.buf_size - num_bytes_in_buf
  let (bytes, file) := s.file.readinto append_len
  .ok (bytes.length, { s with file := file, buf := s.buf ++ bytes })

/-- `_MP3Stream._add_buffer_guard` (lines 443-451): append
    `MAD_BUFFER_GUARD` zero bytes after the live data and remember that a
    guard is present.  Returns the guard length (as the source does). -/
def MP3Stream.add_buffer_guard (s : MP3Stream) : Nat × MP3Stream :=
  (MAD_BUFFER_GUARD,
   { s with
     buf := s.buf ++ List.replicate MAD_BUFFER_GUARD 0
     buffer_guard_length := MAD_BUFFER_GUARD })

/-- `_MP3Stream._ensure_available` (lines 453-501).  Returns
    `(bytes_added, available_bytes, s)`.  When more bytes are needed and no
    guard has been appended yet: discard the consumed data, advance
    `buf_file_position`, read; a zero-byte read appends the guard instead;
    finally hand the new buffer to MAD and clear `skiplen`.  Otherwise a
    no-op returning 0 bytes added. -/
def MP3Stream.ensure_available (s : MP3Stream) (for_mad : Bool) (num_bytes : Option Nat) :
    Except String (Nat × Nat × MP3Stream) := do
  let consumed_bytes :=
    (if for_mad then s.mad.next_frame_offset else s.mad.this_frame_offset) + s.mad.skiplen
  if s.mad.buffer_length < consumed_bytes then
    .error "assertion failed: available_bytes < 0"
  else
    let available_bytes := s.mad.buffer_length - consumed_bytes
    let bytes_needed := match num_bytes with
      | none => MIN_READ_SIZE
      | some n => n - available_bytes
    if 0 < bytes_needed ∧ s.buffer_guard_length = 0 then do
      let s := { s with
        buf := s.buf.drop consumed_bytes
        buf_file_position := s.buf_file_position + consumed_bytes }
      let (bytes_added, s) ← s.read_into_buf available_bytes bytes_needed
      let (bytes_added, s) :=
        if bytes_added = 0 then s.add_buffer_guard else (bytes_added, s)
      let available_bytes := available_bytes + bytes_added
      let s := { s with mad := mad_stream_buffer s.mad available_bytes }
      let s := { s with mad := { s.mad with skiplen := 0 } }
      .ok (bytes_added, available_bytes, s)
    else
      .ok (0, available_bytes, s)

/-- `_MP3Stream.peek` (lines 503-518): up to `num_bytes` bytes starting at
    the byte where MAD lost synchronization, never including guard bytes. -/
def MP3Stream.peek (s : MP3Stream) (num_bytes : Nat) : Except String (List Nat × MP3Stream) := do
  let (_, bytes_in_buf, s) ← s.ensure_available false (some num_bytes)
  let bytes_in_buf := bytes_in_buf - s.buffer_guard_length
  let num_bytes_returned := min num_bytes bytes_in_buf
  let buf_position := s.mad.this_frame_offset + s.mad.skiplen
  .ok ((s.buf.drop buf_position).take num_bytes_returned, s)

/-- `_MP3Stream.consume_exactly` (lines 520-561): discard `num_bytes` from
    the input stream, skipping in-buffer when possible and otherwise seeking
    the bounded file forward; a seek past the bounded region makes it return
    `false` with nothing consumed. -/
def MP3Stream.consume_exactly (s : MP3Stream) (num_bytes : Nat) :
    Except String (Bool × MP3Stream) := do
  let buf_position := s.mad.this_frame_offset + s.mad.skiplen
  let buf_length := s.mad.buffer_length
  if buf_length < buf_position + s.buffer_guard_length then
    .error "assertion failed: bytes_in_buf < 0"
  else
    let bytes_in_buf := buf_length - buf_position - s.buffer_guard_length
    if bytes_in_buf < num_bytes then
      let advance_file_bytes := num_bytes - bytes_in_buf
      match s.file.seek (advance_file_bytes : Int) 1 with
      | .error _ => .ok (false, s)
      | .ok file =>
        if s.buffer_guard_length ≠ 0 then
          .error "assertion failed: added buffer guard but not at EOF?"
        else
          .ok (true, { s with
            file := file
            mad := mad_stream_skip s.mad bytes_in_buf
            buf_file_position := s.buf_file_position + advance_file_bytes })
    else
      .ok (true, { s with mad := mad_stream_skip s.mad num_bytes })

/-- `_MP3Stream.feed_mad` (lines 563-570). -/
def MP3Stream.feed_mad (s : MP3Stream) : Except String (Nat × MP3Stream) := do
  let (bytes_added, _, s) ← s.ensure_available true none
  .ok (bytes_added, s)

/-- The header-matching branch chain of `_detect_tags` (lines 112-134): given
    the up-to-32-byte peek, `none` means "not looking at a tag of any known
    type" (break); otherwise `(tag_type, header_length, length, errors)`. -/
def matchHeader (header : List Nat) : Option (String × Nat × Nat × List String) :=
  if pyStartsWith header tagMagic then
    some ("ID3v1", 3, 128, [])
  else if pyStartsWith header id3Magic ∧ 10 ≤ header.length then
    let (_, length, errs) := parse_id3v2_header_footer header
    some ("ID3v2", 10, length, errs)
  else if pyStartsWith header apeMagic ∧ 32 ≤ header.length then
    let (flags, length, errs) := parse_apev2_header_footer header
    if flags &&& 0x20000000 = 0 then
      some ("APEv2", 32, 32,
        errs ++ ["APEv2 footer found without header, not at end of file, skipping stray footer"])
    else if flags &&& 0x80000000 = 0 then
      some ("APEv2", 32, length, errs ++ ["APEv2 header says tag doesn't have a header"])
    else
      some ("APEv2", 32, length, errs)
  else none

/-- One iteration of the `while True` loop of `_detect_tags` (lines 100-149):
    peek, match, consume the declared length (falling back to just the fixed
    header on failure, with an error recorded), and build the Tag part.
    `none` = the `break` at line 134. -/
def detect_tags_step (s : MP3Stream) : Except String (MP3Stream × Option MPart) := do
  let start_pos ← s.get_file_position false
  let (header, s) ← s.peek 32
  match matchHeader header with
  | none => .ok (s, none)
  | some (tag_type, header_length, length, error_messages) =>
    let (consumed, s) ← s.consume_exactly length
    let (error_messages, s) ←
      if consumed then pure (error_messages, s)
      else do
        let (_, s) ← s.consume_exactly header_length
        pure (error_messages ++
          ["header says tag length mismatch, skipping just header"], s)
    let end_pos ← s.get_file_position false
    .ok (s, some (MPart.tag start_pos end_pos tag_type error_messages))

/-- scanner.py `_detect_tags` (lines 98-150): loop `detect_tags_step` until
    no signature matches, appending Tag parts to the shared parts list and
    tracking whether any tag was found. -/
def detect_tags_loop (fuel : Nat) (s : MP3Stream) (tags : List MPart) (found_tags : Bool) :
    Except String (Bool × List MPart × MP3Stream) :=
  match fuel with
  | 0 => .error "fuel exhausted"
  | fuel + 1 => do
    let (s, o) ← detect_tags_step s
    match o with
    | none => .ok (found_tags, tags, s)
    | some tag => detect_tags_loop fuel s (tags ++ [tag]) true

def detect_tags (fuel : Nat) (s : MP3Stream) (tags : List MPart) :
    Except String (Bool × List MPart × MP3Stream) :=
  detect_tags_loop fuel s tags false

/-- The `{layer, bitrate, mode, samplerate}` fields of `mad_frame.header`
    the scanner copies into `AudioFrame` parts. -/
structure MadHeaderRec where
  layer : Nat
  mode : Nat
  bitrate : Nat
  samplerate : Nat
deriving DecidableEq, Repr

inductive DecodeOutcome
  | success
  | err (code : Nat) (msg : String)
deriving DecidableEq, Repr

/-- One oracle step for the external decoder: the cursor state and frame
    header visible after a `mad_frame_decode` call, plus its outcome. -/
structure DecodeStep where
  skiplen : Nat
  sync : Bool
  this_frame_offset : Nat
  next_frame_offset : Nat
  header : MadHeaderRec
  outcome : DecodeOutcome
deriving DecidableEq, Repr

def MAD_ERROR_BUFLEN : Nat := 0x0001

def MAD_ERROR_LOSTSYNC : Nat := 0x0101

/-- madctypes.py `MAD_RECOVERABLE` (line 71). -/
def MAD_RECOVERABLE (error : Nat) : Bool := error &&& 0xff00 ≠ 0

/-- The cursor state a `DecodeStep` prescribes (`buffer_length` is kept:
    decoding never rebuffers). -/
def DecodeStep.post (step : DecodeStep) (mad : MadStream) : MadStream :=
  { skiplen := step.skiplen
    sync := step.sync
    this_frame_offset := step.this_frame_offset
    next_frame_offset := step.next_frame_offset
    buffer_length := mad.buffer_length }

/-- Modelled from the spec: the per-call contract of the external decoder
    (spec §6 cursor state "all relative to the most recent `set_buffer`
    call"; §4.3's consumed-byte cursor; §5's "never be read by the decoder
    beyond the bytes explicitly handed to it"; glossary "Sync": having
    located a valid frame boundary, hence on real non-guard data; a
    lost-sync report leaves the decoder unsynchronized).  Checked: this-frame
    precedes next-frame; offsets stay inside the handed buffer; the clamped
    consumed position never retreats; a synchronized this-frame offset is at
    or after the consumed position and outside the guard; `MAD_ERROR_LOSTSYNC`
    implies `sync = 0`. -/
def decode_contract (mad : MadStream) (guard : Nat) (step : DecodeStep) : Bool :=
  let post := step.post mad
  decide (step.this_frame_offset ≤ step.next_frame_offset) &&
  decide (step.next_frame_offset + step.skiplen ≤ mad.buffer_length) &&
  decide (min (mad.buf_position true) (mad.buffer_length - guard) ≤
    min (post.buf_position true) (mad.buffer_length - guard)) &&
  (!step.sync ||
    (decide (min (mad.buf_position true) (mad.buffer_length - guard) ≤ step.this_frame_offset) &&
     decide (step.this_frame_offset + guard ≤ mad.buffer_length))) &&
  (match step.outcome with
   | .err code _ => code != MAD_ERROR_LOSTSYNC || !step.sync
   | .success => step.sync)

/-- Modelled from the spec: one call of the external `mad_frame_decode`
    (spec §6), driven by the oracle `step`; the call is rejected (the scan
    aborts) unless the step satisfies the decoder contract. -/
def mad_frame_decode (mad : MadStream) (guard : Nat) (step : DecodeStep) :
    Except String MadStream :=
  if decode_contract mad guard step then .ok (step.post mad)
  else .error "decoder contract violation"

/-- The mutable state of the `scan_mp3` loop (lines 270-272):
    the stream, the latest `mad_frame.header`, `lost_sync_start`,
    `last_position`, and the accumulated parts. -/
structure ScanState where
  stream : MP3Stream
  frame_header : MadHeaderRec
  lost_sync_start : Option Nat
  last_position : Nat
  mp3_parts : List MPart
deriving DecidableEq, Repr

/-- The adjacent-contiguity assertion of `scan_mp3` (lines 344-345). -/
def partsChain : List MPart → Bool
  | [] => true
  | [_] => true
  | p :: q :: rest => p.stop == q.start && partsChain (q :: rest)

/-- Lines 337-346 of `scan_mp3`: after the decode loop breaks, close any
    open unknown-data span against `start_of_footer`, append the
    pre-computed footer parts, and run the final assertions
    (`mp3_parts[0]` raises IndexError on an empty list). -/
def scan_finish (start_of_footer : Nat) (footer_parts : List MPart) (st : ScanState) :
    Except String (List MPart) :=
  let last_position := match st.lost_sync_start with
    | some v => v
    | none => st.last_position
  let mp3_parts :=
    if last_position < start_of_footer then
      st.mp3_parts ++ [MPart.unknownData last_position start_of_footer]
    else st.mp3_parts
  let mp3_parts := mp3_parts ++ footer_parts
  match mp3_parts with
  | [] => .error "IndexError: mp3_parts[0]"
  | p :: _ =>
    if p.start ≠ 0 then .error "assertion failed: mp3_parts[0].start != 0"
    else if partsChain mp3_parts then .ok mp3_parts
    else .error "assertion failed: parts not contiguous"

/-- Lines 312-336 of `scan_mp3`: close a pending unknown-data span at the
    frame start position, then append an `AudioFrame` from `last_position`
    to the decoder's current position, carrying the given error messages
    and the latest frame header fields. -/
def scan_emit_frame (st : ScanState) (error_messages : List String) :
    Except String ScanState := do
  let st ← match st.lost_sync_start with
    | some v => do
      let lp ← st.stream.get_frame_start_position
      pure { st with
        last_position := lp
        mp3_parts := st.mp3_parts ++ [MPart.unknownData v lp]
        lost_sync_start := none }
    | none => pure st
  let new_position ← st.stream.get_file_position true
  let h := st.frame_header
  .ok { st with
    mp3_parts := st.mp3_parts ++ [MPart.audioFrame st.last_position new_position
      error_messages h.layer h.bitrate h.mode h.samplerate],
    last_position := new_position }

/-- The `while True` decode loop of `scan_mp3` (lines 273-336), one decoder
    oracle step per `mad_frame_decode` call.  `.error` covers fatal decode
    errors, assertion failures, and exhausted fuel/trace. -/
def scan_loop (detect_fuel start_of_footer : Nat) (footer_parts : List MPart)
    (trace : List DecodeStep) (st : ScanState) : Except String (List MPart) :=
  match trace with
  | [] => .error "decoder trace exhausted"
  | step :: rest => do
    let mad ← mad_frame_decode st.stream.mad st.stream.buffer_guard_length step
    let st := { st with
      stream := { st.stream with mad := mad }
      frame_header := step.header }
    match step.outcome with
    | .err code msg =>
      if code = MAD_ERROR_BUFLEN then do
        let (bytes_added, s) ← st.stream.feed_mad
        if bytes_added ≠ 0 then
          scan_loop detect_fuel start_of_footer footer_parts rest { st with stream := s }
        else
          scan_finish start_of_footer footer_parts { st with stream := s }
      else if code = MAD_ERROR_LOSTSYNC then
        match st.lost_sync_start with
        | none => do
          let (found, parts, s) ← detect_tags detect_fuel st.stream st.mp3_parts
          if !found then
            scan_loop detect_fuel start_of_footer footer_parts rest
              { st with
                stream := s
                mp3_parts := parts
                lost_sync_start := some st.last_position }
          else do
            let lp ← s.get_file_position true
            scan_loop detect_fuel start_of_footer footer_parts rest
              { st with stream := s, mp3_parts := parts, last_position := lp }
        | some _ => do
          let lp ← st.stream.get_file_position true
          scan_loop detect_fuel start_of_footer footer_parts rest
            { st with last_position := lp }
      else if !MAD_RECOVERABLE code then
        .error msg
      else do
        let st ← scan_emit_frame st [msg]
        scan_loop detect_fuel start_of_footer footer_parts rest st
    | .success => do
      let st ← scan_emit_frame st []
      scan_loop detect_fuel start_of_footer footer_parts rest st

/-- scanner.py `scan_mp3` (lines 256-346): backward detection establishes
    the bounded region, the stream is primed, and the decode loop runs
    against the decoder oracle `trace`. -/
def scan_mp3 (detect_fuel : Nat) (data : List Nat) (trace : List DecodeStep) :
    Except String (List MPart) := do
  let footer_parts ← detect_tags_at_end detect_fuel data
  let start_of_footer := match footer_parts with
    | [] => data.length
    | p :: _ => p.start
  let file ← TruncatingFileWrapper.make ⟨data, 0⟩ start_of_footer
  let s := MP3Stream.start file
  let r ← s.feed_mad
  let last_position ← r.2.get_file_position true
  scan_loop detect_fuel start_of_footer footer_parts trace
    ⟨r.2, ⟨0, 0, 0, 0⟩, none, last_position, []⟩

/-- The bytes of each part's range `[start, stop)`, concatenated in order
    (spec §8's round-trip property). -/
def partsConcatBytes (data : List Nat) (parts : List MPart) : List Nat :=
  (parts.map (fun p => (data.drop p.start).take (p.stop - p.start))).flatten

/-- Lines 263-269 of `scan_mp3` in isolation: the freshly constructed and
    primed window for a file whose trailing-tag limit is `limit`. -/
def scanStreamAfterFeed (data : List Nat) (limit : Nat) : Except String MP3Stream := do
  let file ← TruncatingFileWrapper.make ⟨data, 0⟩ limit
  let r ← (MP3Stream.start file).feed_mad
  .ok r.2

/-- A 143-byte file: a 15-byte Lyrics3v2 footer block whose 6-byte length
    field reads `-00030` (which Python's `int()` accepts), followed by a
    128-byte ID3v1 tag. -/
def negLyricsData : List Nat :=
  [45, 48, 48, 48, 51, 48] ++ lyricsMagic ++ tagMagic ++ List.replicate 125 120

def zeroHeader : MadHeaderRec := ⟨0, 0, 0, 0⟩

/-- A decoder trace for scanning `negLyricsData`: the decoder loses
    synchronization on the leading non-audio bytes, then reports underrun
    once only guard bytes remain. -/
def negLyricsTrace : List DecodeStep :=
  [⟨0, false, 0, 0, zeroHeader, .err MAD_ERROR_LOSTSYNC "lost synchronization"⟩,
   ⟨0, false, 30, 30, zeroHeader, .err MAD_ERROR_BUFLEN "input buffer too small"⟩]

/-- What `scan_mp3` returns for `negLyricsData` under `negLyricsTrace`. -/
def negLyricsParts : List MPart :=
  [MPart.unknownData 0 30, MPart.tag 30 15 "Lyrics3v2" [], MPart.tag 15 143 "ID3v1" []]

/-- A 32-byte file that is exactly an APEv2 footer declaring length 0 with
    flags 0 (no header/footer bits): backward detection consumes 0 bytes per
    iteration on it. -/
def apeZeroData : List Nat := apeMagic ++ List.replicate 20 0

/-- The zero-length tag `_detect_tags_at_end` appends on every iteration
    over `apeZeroData`. -/
def apeZeroTag : MPart := MPart.tag 32 32 "APEv2" []

/-- An 82-byte file: a 32-byte APEv2 header with declared length 50, flags
    `0x80000000` (contains-header bit only, no this-is-a-header bit),
    non-zero reserved field, then 50 payload bytes. -/
def c6ApeData : List Nat :=
  apeMagic ++ [50, 0, 0, 0] ++ [0, 0, 0, 0] ++ [0, 0, 0, 0x80] ++
  [1, 0, 0, 0, 0, 0, 0, 0] ++ List.replicate 50 0

/-- The primed window for `c6ApeData` (the whole 82-byte file fits in the
    initial read). -/
def c6ApeStream : MP3Stream :=
  { file :=
      { file := { data := c6ApeData, pos := 82 }
        truncated_len := 82
        bytes_remaining := 0 }
    mad :=
      { skiplen := 0
        sync := true
        this_frame_offset := 0
        next_frame_offset := 0
        buffer_length := 82 }
    buf := c6ApeData
    buf_size := INITIAL_BUFFER_SIZE
    buf_file_position := 0
    buffer_guard_length := 0 }

/-- A 40-byte file: a 32-byte APEv2 tag with flags 0 (a stray footer: no
    this-is-a-header bit), declared length 1, zero reserved, 8 payload
    bytes. -/
def apeStrayData : List Nat :=
  apeMagic ++ [1, 0, 0, 0] ++ [0, 0, 0, 0] ++ [0, 0, 0, 0] ++
  List.replicate 8 0 ++ List.replicate 8 0

/-- The primed window for `apeStrayData`. -/
def apeStrayStream : MP3Stream :=
  { file :=
      { file := { data := apeStrayData, pos := 40 }
        truncated_len := 40
        bytes_remaining := 0 }
    mad :=
      { skiplen := 0
        sync := true
        this_frame_offset := 0
        next_frame_offset := 0
        buffer_length := 40 }
    buf := apeStrayData
    buf_size := INITIAL_BUFFER_SIZE
    buf_file_position := 0
    buffer_guard_length := 0 }

/-- A 72-byte file: a 32-byte APEv2 header with flags `0x20000000` only
    (this-is-a-header bit, but the flags claim the tag has no header),
    declared length 40, zero reserved, then 40 payload bytes. -/
def apeNoHdrData : List Nat :=
  apeMagic ++ [40, 0, 0, 0] ++ [0, 0, 0, 0] ++ [0, 0, 0, 0x20] ++
  List.replicate 8 0 ++ List.replicate 40 0

/-- The primed window for `apeNoHdrData`. -/
def apeNoHdrStream : MP3Stream :=
  { file :=
      { file := { data := apeNoHdrData, pos := 72 }
        truncated_len := 72
        bytes_remaining := 0 }
    mad :=
      { skiplen := 0
        sync := true
        this_frame_offset := 0
        next_frame_offset := 0
        buffer_length := 72 }
    buf := apeNoHdrData
    buf_size := INITIAL_BUFFER_SIZE
    buf_file_position := 0
    buffer_guard_length := 0 }

/-- A 15-byte file that is exactly an ID3v2 tag: a 10-byte header (version
    2.4.0, flags 0, synchsafe length 5) and 5 content bytes. -/
def id3WitData : List Nat :=
  [73, 68, 51, 4, 0, 0, 0, 0, 0, 5] ++ List.replicate 5 120

/-- A decoder trace for scanning `id3WitData`: lose sync at offset 0, then
    underrun at end of input. -/
def id3WitTrace : List DecodeStep :=
  [⟨0, false, 0, 0, zeroHeader, .err MAD_ERROR_LOSTSYNC "lost synchronization"⟩,
   ⟨0, false, 15, 15, zeroHeader, .err MAD_ERROR_BUFLEN "input buffer too small"⟩]

/-- The primed window for `id3WitData` (the whole 15-byte file fits in the
    initial read). -/
def id3WitStream : MP3Stream :=
  { file :=
      { file := { data := id3WitData, pos := 15 }
        truncated_len := 15
        bytes_remaining := 0 }
    mad :=
      { skiplen := 0
        sync := true
        this_frame_offset := 0
        next_frame_offset := 0
        buffer_length := 15 }
    buf := id3WitData
    buf_size := INITIAL_BUFFER_SIZE
    buf_file_position := 0
    buffer_guard_length := 0 }

/-- `id3WitStream` after `peek 32` refills at end-of-input and appends the
    8-byte guard. -/
def id3WitStreamFed : MP3Stream :=
  { file :=
      { file := { data := id3WitData, pos := 15 }
        truncated_len := 15
        bytes_remaining := 0 }
    mad :=
      { skiplen := 0
        sync := true
        this_frame_offset := 0
        next_frame_offset := 0
        buffer_length := 23 }
    buf := id3WitData ++ List.replicate 8 0
    buf_size := INITIAL_BUFFER_SIZE
    buf_file_position := 0
    buffer_guard_length := 8 }

/-- The operations performed on one scan's `_MP3Stream` window after
    construction: refills (`_ensure_available` both directly as `feed_mad`
    and from `peek`), byte consumption, and decoder calls. -/
inductive StreamOp
  | ensureAvail (for_mad : Bool) (num_bytes : Option Nat)
  | peekOp (num_bytes : Nat)
  | consumeOp (num_bytes : Nat)
  | decodeOp (step : DecodeStep)
deriving DecidableEq, Repr

def applyStreamOp (s : MP3Stream) : StreamOp → Except String MP3Stream
  | .ensureAvail for_mad n => (s.ensure_available for_mad n).map (fun r => r.2.2)
  | .peekOp n => (s.peek n).map Prod.snd
  | .consumeOp n => (s.consume_exactly n).map Prod.snd
  | .decodeOp step => (mad_frame_decode s.mad s.buffer_guard_length step).map
      (fun mad => { s with mad := mad })

/-- The successive window states over an operation sequence, stopping at the
    first error. -/
def streamStates (s : MP3Stream) : List StreamOp → List MP3Stream
  | [] => [s]
  | op :: ops =>
    match applyStreamOp s op with
    | .error _ => [s]
    | .ok s2 => s :: streamStates s2 ops

/-- The number of adjacent state pairs in which a buffer guard appears. -/
def guardAppendCount : List MP3Stream → Nat
  | s1 :: s2 :: rest =>
    (if s1.buffer_guard_length = 0 ∧ s2.buffer_guard_length ≠ 0 then 1 else 0) +
    guardAppendCount (s2 :: rest)
  | _ => 0

/-- The refill condition of `_ensure_available` (lines 480-484): more bytes
    are wanted than are available and no guard has been appended yet. -/
def refillNeeded (s : MP3Stream) (for_mad : Bool) (num_bytes : Option Nat) : Bool :=
  let consumed_bytes :=
    (if for_mad then s.mad.next_frame_offset else s.mad.this_frame_offset) + s.mad.skiplen
  let available_bytes := s.mad.buffer_length - consumed_bytes
  let bytes_needed := match num_bytes with
    | none => MIN_READ_SIZE
    | some n => n - available_bytes
  decide (0 < bytes_needed) && decide (s.buffer_guard_length = 0)

/-- A fresh window over an empty bounded region (limit 0). -/
def emptyStream : MP3Stream :=
  { file :=
      { file := { data := [], pos := 0 }
        truncated_len := 0
        bytes_remaining := 0 }
    mad := MadStream.start
    buf := []
    buf_size := INITIAL_BUFFER_SIZE
    buf_file_position := 0
    buffer_guard_length := 0 }

/-- `emptyStream` after its first refill hits end-of-input and appends the
    8-byte guard. -/
def emptyStreamGuarded : MP3Stream :=
  { file :=
      { file := { data := [], pos := 0 }
        truncated_len := 0
        bytes_remaining := 0 }
    mad :=
      { skiplen := 0
        sync := true
        this_frame_offset := 0
        next_frame_offset := 0
        buffer_length := 8 }
    buf := List.replicate 8 0
    buf_size := INITIAL_BUFFER_SIZE
    buf_file_position := 0
    buffer_guard_length := 8 }


/-- An 82-byte file: a 32-byte APEv2 header with flags `0xA0000000` (both
    the this-is-a-header bit 0x20000000 and the contains-header bit
    0x80000000), declared length 50, non-zero reserved field, then 50
    payload bytes. -/
def apeBothData : List Nat :=
  apeMagic ++ [50, 0, 0, 0] ++ [0, 0, 0, 0] ++ [0, 0, 0, 0xa0] ++
  [1, 0, 0, 0, 0, 0, 0, 0] ++ List.replicate 50 0

/-- The primed window for `apeBothData`. -/
def apeBothStream : MP3Stream :=
  { file :=
      { file := { data := apeBothData, pos := 82 }
        truncated_len := 82
        bytes_remaining := 0 }
    mad :=
      { skiplen := 0
        sync := true
        this_frame_offset := 0
        next_frame_offset := 0
        buffer_length := 82 }
    buf := apeBothData
    buf_size := INITIAL_BUFFER_SIZE
    buf_file_position := 0
    buffer_guard_length := 0 }


theorem apeZero_loop_fuel :
    ∀ (fuel : Nat) (acc : List MPart),
      detect_tags_at_end_loop apeZeroData fuel 32 acc = .error "fuel exhausted"
  | 0, _ => rfl
  | fuel + 1, acc => by
    show detect_tags_at_end_loop apeZeroData fuel 32 (acc ++ [apeZeroTag]) =
      .error "fuel exhausted"
    exact apeZero_loop_fuel fuel _

/-- **C1.**  The claim fails on the code: `scan_mp3` can return a Part
    sequence that is not ordered by `start` and whose byte ranges do not
    concatenate back to the file.  On `negLyricsData` (a trailing ID3v1 tag
    preceded by a Lyrics3v2 block declaring length `-00030`), backward
    detection moves its position forward, the scan's own assertions all
    pass, and the returned parts are `[Unknown 0 30, Tag 30 15, Tag 15 143]`:
    starts `[0, 30, 15]` are unordered and the concatenation has 158 bytes,
    not 143. -/
theorem C1_invariants_fail_on_negative_lyrics_length :
    scan_mp3 10 negLyricsData negLyricsTrace = .ok negLyricsParts ∧
    ¬ List.Pairwise (· ≤ ·) (negLyricsParts.map MPart.start) ∧
    partsConcatBytes negLyricsData negLyricsParts ≠ negLyricsData :=
  ⟨by decide, by decide, by decide⟩

/-- **C4.**  The claim fails on the code: on `negLyricsData` the detected
    trailing tags are `[Tag 30 15 Lyrics3v2, Tag 15 143 ID3v1]` (the reversal
    is performed, but a negative Lyrics3v2 length makes the sequence
    non-monotone), and the limit handed to the BoundedReader is the first
    tag's start 30, while the smallest start offset among the tags is 15. -/
theorem C4_limit_is_not_smallest_start :
    detect_tags_at_end 10 negLyricsData =
      .ok [MPart.tag 30 15 "Lyrics3v2" [], MPart.tag 15 143 "ID3v1" []] ∧
    start_of_footer_tags 10 negLyricsData = .ok 30 ∧
    (∃ p ∈ [MPart.tag 30 15 "Lyrics3v2" [], MPart.tag 15 143 "ID3v1" []],
      p.start < 30) :=
  ⟨by decide, by decide, ⟨MPart.tag 15 143 "ID3v1" [], by decide, by decide⟩⟩

/-- **C9.**  The claim fails on the code: `_detect_tags_at_end` does not
    terminate on every finite input.  On `apeZeroData` (an APEv2 footer
    declaring length 0 with flags 0) each iteration appends a zero-length
    tag and leaves `file_pos` unchanged at 32, so the loop never exits:
    the fueled model steps to itself with one more tag appended, and
    exhausts any amount of fuel. -/
theorem C9_detect_tags_at_end_does_not_terminate :
    (∀ (fuel : Nat) (acc : List MPart),
      detect_tags_at_end_loop apeZeroData (fuel + 1) 32 acc =
        detect_tags_at_end_loop apeZeroData fuel 32 (acc ++ [apeZeroTag])) ∧
    (∀ fuel : Nat, detect_tags_at_end fuel apeZeroData = .error "fuel exhausted") := by
  constructor
  · intro fuel acc
    rfl
  · intro fuel
    show (detect_tags_at_end_loop apeZeroData fuel 32 []).map List.reverse = _
    rw [apeZero_loop_fuel]
    rfl

/-- **C2 (counterexample).**  An attempted read past `limit` does not fail
    with an out-of-range error: with the cursor seeked exactly to the limit
    (5) of a 7-byte file, `readinto(3)` — a read lying entirely beyond the
    limit — returns normally with zero bytes.  (Only seeks raise.) -/
theorem C2_read_past_limit_does_not_raise :
    TruncatingFileWrapper.seek ⟨⟨[1, 2, 3, 4, 5, 6, 7], 0⟩, 5, 5⟩ 5 0 =
      .ok ⟨⟨[1, 2, 3, 4, 5, 6, 7], 5⟩, 5, 0⟩ ∧
    TruncatingFileWrapper.readinto ⟨⟨[1, 2, 3, 4, 5, 6, 7], 5⟩, 5, 0⟩ 3 =
      ([], ⟨⟨[1, 2, 3, 4, 5, 6, 7], 5⟩, 5, 0⟩) :=
  ⟨by decide, by decide⟩

/-- **C6 (counterexample).**  A forward-detected APEv2 tag with non-zero
    reserved field and the contains-header flag bit (0x80000000) set — but
    without the this-is-a-header bit (0x20000000) — is treated as a stray
    footer: it consumes only 32 bytes, not `declared_length + 32 = 82`. -/
theorem C6_reserved_nonzero_stray_footer_consumes_32 :
    "reserved section non-zero" ∈ (parse_apev2_header_footer (c6ApeData.take 32)).2.2 ∧
    (parse_apev2_header_footer (c6ApeData.take 32)).1 &&& 0x80000000 ≠ 0 ∧
    (parse_apev2_header_footer (c6ApeData.take 32)).2.1 = 50 + 32 ∧
    scanStreamAfterFeed c6ApeData 82 = .ok c6ApeStream ∧
    (detect_tags_step c6ApeStream).map Prod.snd =
      .ok (some (MPart.tag 0 32 "APEv2"
        ["reserved section non-zero",
         "APEv2 footer found without header, not at end of file, skipping stray footer"])) ∧
    (MPart.tag 0 32 "APEv2"
        ["reserved section non-zero",
         "APEv2 footer found without header, not at end of file, skipping stray footer"]).valid
      = false ∧
    (32 : Nat) ≠ 0 + (50 + 32) :=
  ⟨by decide, by decide, by decide, by decide, by decide, by decide, by decide⟩

theorem buf_position_false (m : MadStream) :
    m.buf_position false = m.this_frame_offset + m.skiplen := by
  simp [MadStream.buf_position]

theorem get_file_position_eval (s : MP3Stream) (for_mad : Bool)
    (h : s.mad.buf_position for_mad ≤ s.mad.buffer_length) :
    s.get_file_position for_mad = .ok (s.buf_file_position +
      min (s.mad.buf_position for_mad)
        (s.mad.buffer_length - s.buffer_guard_length)) := by
  unfold MP3Stream.get_file_position
  rw [if_neg (Nat.not_lt.2 h)]

/-- **C7.**  `get_file_position` (whenever it returns, i.e. its internal
    assertion holds) yields `window_file_base + next_frame_offset +
    skip_length` when `for_decoder` is set and the decoder is synchronized
    or has no pending skip, otherwise `window_file_base + this_frame_offset
    + skip_length` — in both cases clamped so that it never exceeds
    `window_file_base + (buffer_length − guard_length)`, i.e. it never
    reports a position inside the guard region. -/
theorem C7_get_file_position_cases (s : MP3Stream) (for_decoder : Bool) (p : Nat)
    (h : s.get_file_position for_decoder = .ok p) :
    (for_decoder ∧ (s.mad.sync ∨ s.mad.skiplen = 0) →
      p = s.buf_file_position + min (s.mad.next_frame_offset + s.mad.skiplen)
        (s.mad.buffer_length - s.buffer_guard_length)) ∧
    (¬ (for_decoder ∧ (s.mad.sync ∨ s.mad.skiplen = 0)) →
      p = s.buf_file_position + min (s.mad.this_frame_offset + s.mad.skiplen)
        (s.mad.buffer_length - s.buffer_guard_length)) ∧
    p ≤ s.buf_file_position + (s.mad.buffer_length - s.buffer_guard_length) := by
  unfold MP3Stream.get_file_position MadStream.buf_position at h
  by_cases hc : for_decoder ∧ (s.mad.sync ∨ s.mad.skiplen = 0)
  · rw [if_pos hc] at h
    simp only [] at h
    split at h
    · exact absurd h (by simp)
    · cases Except.ok.inj h
      refine ⟨fun _ => rfl, fun hn => absurd hc hn, ?_⟩
      exact Nat.add_le_add_left (Nat.min_le_right _ _) _
  · rw [if_neg hc] at h
    simp only [] at h
    split at h
    · exact absurd h (by simp)
    · cases Except.ok.inj h
      exact ⟨fun hcc => absurd hcc hc, fun _ => rfl,
        Nat.add_le_add_left (Nat.min_le_right _ _) _⟩

/-- Applies C7 at a concrete synchronized stream: the reported position is
    the (clamped) next-frame position and lies outside the guard region. -/
theorem C7_witness :
    (0 : Nat) = c6ApeStream.buf_file_position +
      min (c6ApeStream.mad.next_frame_offset + c6ApeStream.mad.skiplen)
        (c6ApeStream.mad.buffer_length - c6ApeStream.buffer_guard_length) ∧
    (0 : Nat) ≤ c6ApeStream.buf_file_position +
      (c6ApeStream.mad.buffer_length - c6ApeStream.buffer_guard_length) :=
  ⟨(C7_get_file_position_cases c6ApeStream true 0 (by decide)).1 (by decide),
   (C7_get_file_position_cases c6ApeStream true 0 (by decide)).2.2⟩

theorem seek_guard_of_target (w : TruncatingFileWrapper) (offset : Int) (whence : Nat)
    (hpos : w.file.pos ≤ w.truncated_len)
    (hrem : w.bytes_remaining = w.truncated_len - w.file.pos)
    (h : (whence = 0 ∧ (w.truncated_len : Int) < offset) ∨
      (whence = 1 ∧ (w.truncated_len : Int) < (w.file.pos : Int) + offset) ∨
      (whence = 2 ∧ (w.truncated_len : Int) < (w.truncated_len : Int) + offset)) :
    (whence = 0 ∧ (w.truncated_len : Int) < offset) ∨
      (whence = 1 ∧ (w.bytes_remaining : Int) < offset) ∨
      (whence = 2 ∧ 0 < offset) := by
  rcases h with ⟨h1, h2⟩ | ⟨h1, h2⟩ | ⟨h1, h2⟩
  · exact Or.inl ⟨h1, h2⟩
  · exact Or.inr (Or.inl ⟨h1, by omega⟩)
  · exact Or.inr (Or.inr ⟨h1, by omega⟩)

/-- **C2 (amended).**  For the BoundedReader: every absolute, relative or
    end-relative *seek* whose target exceeds `limit` fails with an
    out-of-range error; a successful seek lands at or before `limit` (and
    preserves the reader's cached-remaining invariant); a *read* request
    never fails on crossing `limit` — it is truncated so that only bytes
    from `[pos, limit)` are returned, possibly none. -/
theorem C2_bounded_reader_range (w : TruncatingFileWrapper) (offset : Int)
    (whence : Nat) (n : Nat)
    (hpos : w.file.pos ≤ w.truncated_len)
    (hrem : w.bytes_remaining = w.truncated_len - w.file.pos) :
    (((whence = 0 ∧ (w.truncated_len : Int) < offset) ∨
      (whence = 1 ∧ (w.truncated_len : Int) < (w.file.pos : Int) + offset) ∨
      (whence = 2 ∧ (w.truncated_len : Int) < (w.truncated_len : Int) + offset)) →
      ∃ e, w.seek offset whence = .error e) ∧
    (∀ w2, w.seek offset whence = .ok w2 →
      w2.file.pos ≤ w2.truncated_len ∧
      w2.bytes_remaining = w2.truncated_len - w2.file.pos ∧
      w2.truncated_len = w.truncated_len ∧ w2.file.data = w.file.data) ∧
    ((w.readinto n).1 = (w.file.data.drop w.file.pos).take (min n w.bytes_remaining) ∧
      w.file.pos + (w.readinto n).1.length ≤ w.truncated_len ∧
      (w.readinto n).2.file.pos = w.file.pos + (w.readinto n).1.length) := by
  refine ⟨?_, ?_, ?_, ?_, ?_⟩
  · intro h
    unfold TruncatingFileWrapper.seek
    rw [if_pos (seek_guard_of_target w offset whence hpos hrem h)]
    exact ⟨_, rfl⟩
  · intro w2 h2
    unfold TruncatingFileWrapper.seek at h2
    match whence with
    | 0 =>
      simp at h2
      split at h2
      · exact absurd h2 (by simp)
      · split at h2
        · exact absurd h2 (by simp)
        · cases Except.ok.inj h2
          refine ⟨?_, ?_, rfl, rfl⟩ <;> dsimp only <;> omega
    | 1 =>
      simp at h2
      split at h2
      · exact absurd h2 (by simp)
      · split at h2
        · exact absurd h2 (by simp)
        · cases Except.ok.inj h2
          refine ⟨?_, ?_, rfl, rfl⟩ <;> dsimp only <;> omega
    | 2 =>
      simp at h2
      split at h2
      · exact absurd h2 (by simp)
      · split at h2
        · exact absurd h2 (by simp)
        · cases Except.ok.inj h2
          refine ⟨?_, ?_, rfl, rfl⟩ <;> dsimp only <;> omega
    | (k + 3) =>
      simp at h2
  · rfl
  · have : (w.readinto n).1.length ≤ min n w.bytes_remaining := by
      show ((w.file.data.drop w.file.pos).take (min n w.bytes_remaining)).length ≤ _
      simp
    omega
  · show w.file.pos + ((w.file.data.drop w.file.pos).take (min n w.bytes_remaining)).length =
      _
    rfl

/-- Applies the amended C2 at a concrete reader (3-byte file, limit 2,
    cursor 1): a relative seek of +5 crosses the limit and raises, while a
    5-byte read request is truncated to the single in-range byte. -/
theorem C2_witness :
    (∃ e, TruncatingFileWrapper.seek ⟨⟨[1, 2, 3], 1⟩, 2, 1⟩ 5 1 = .error e) ∧
    ((TruncatingFileWrapper.readinto ⟨⟨[1, 2, 3], 1⟩, 2, 1⟩ 5).1 =
        (([1, 2, 3] : List Nat).drop 1).take (min 5 1) ∧
      1 + (TruncatingFileWrapper.readinto ⟨⟨[1, 2, 3], 1⟩, 2, 1⟩ 5).1.length ≤ 2 ∧
      (TruncatingFileWrapper.readinto ⟨⟨[1, 2, 3], 1⟩, 2, 1⟩ 5).2.file.pos =
        1 + (TruncatingFileWrapper.readinto ⟨⟨[1, 2, 3], 1⟩, 2, 1⟩ 5).1.length) :=
  have h := C2_bounded_reader_range ⟨⟨[1, 2, 3], 1⟩, 2, 1⟩ 5 1 5 (by decide) (by decide)
  ⟨h.1 (Or.inr (Or.inl ⟨rfl, by decide⟩)), h.2.2⟩

theorem consume_exactly_false_eq (s s2 : MP3Stream) (n : Nat)
    (h : s.consume_exactly n = .ok (false, s2)) : s2 = s := by
  unfold MP3Stream.consume_exactly at h
  simp only [] at h
  by_cases hassert : s.mad.buffer_length <
      s.mad.this_frame_offset + s.mad.skiplen + s.buffer_guard_length
  · rw [if_pos hassert] at h
    exact absurd h (by simp)
  · rw [if_neg hassert] at h
    by_cases hlt : s.mad.buffer_length - (s.mad.this_frame_offset + s.mad.skiplen) -
        s.buffer_guard_length < n
    · rw [if_pos hlt] at h
      cases hseek : s.file.seek
          ((n - (s.mad.buffer_length - (s.mad.this_frame_offset + s.mad.skiplen) -
            s.buffer_guard_length) : Nat) : Int) 1 with
      | error e =>
        rw [hseek] at h
        simp only [] at h
        exact (Prod.mk.inj (Except.ok.inj h)).2.symm
      | ok file =>
        rw [hseek] at h
        simp only [] at h
        by_cases hg : s.buffer_guard_length ≠ 0
        · rw [if_pos hg] at h
          exact absurd h (by simp)
        · rw [if_neg hg] at h
          exact absurd (Prod.mk.inj (Except.ok.inj h)).1 (by simp)
    · rw [if_neg hlt] at h
      exact absurd (Prod.mk.inj (Except.ok.inj h)).1 (by simp)

theorem consume_exactly_advance (s s2 : MP3Stream) (n : Nat)
    (h : s.consume_exactly n = .ok (true, s2)) :
    s2.buffer_guard_length = s.buffer_guard_length ∧
    ∃ p, s.get_file_position false = .ok p ∧
      s2.get_file_position false = .ok (p + n) := by
  unfold MP3Stream.consume_exactly at h
  simp only [] at h
  by_cases hassert : s.mad.buffer_length <
      s.mad.this_frame_offset + s.mad.skiplen + s.buffer_guard_length
  · rw [if_pos hassert] at h
    exact absurd h (by simp)
  · rw [if_neg hassert] at h
    by_cases hlt : s.mad.buffer_length - (s.mad.this_frame_offset + s.mad.skiplen) -
        s.buffer_guard_length < n
    · rw [if_pos hlt] at h
      cases hseek : s.file.seek
          ((n - (s.mad.buffer_length - (s.mad.this_frame_offset + s.mad.skiplen) -
            s.buffer_guard_length) : Nat) : Int) 1 with
      | error e =>
        rw [hseek] at h
        simp only [] at h
        exact absurd (Prod.mk.inj (Except.ok.inj h)).1 (by simp)
      | ok file =>
        rw [hseek] at h
        simp only [] at h
        by_cases hg : s.buffer_guard_length ≠ 0
        · rw [if_pos hg] at h
          exact absurd h (by simp)
        · rw [if_neg hg] at h
          obtain ⟨-, rfl⟩ := Prod.mk.inj (Except.ok.inj h)
          refine ⟨rfl, s.buf_file_position + (s.mad.this_frame_offset + s.mad.skiplen),
            ?_, ?_⟩
          · rw [get_file_position_eval s false (by rw [buf_position_false]; omega)]
            rw [buf_position_false]
            congr 1
            omega
          · rw [get_file_position_eval _ false
              (by simp only [mad_stream_skip, buf_position_false]; omega)]
            simp only [mad_stream_skip, buf_position_false]
            congr 1
            omega
    · rw [if_neg hlt] at h
      obtain ⟨-, rfl⟩ := Prod.mk.inj (Except.ok.inj h)
      refine ⟨rfl, s.buf_file_position + (s.mad.this_frame_offset + s.mad.skiplen),
        ?_, ?_⟩
      · rw [get_file_position_eval s false (by rw [buf_position_false]; omega)]
        rw [buf_position_false]
        congr 1
        omega
      · rw [get_file_position_eval _ false
          (by simp only [mad_stream_skip, buf_position_false]; omega)]
        simp only [mad_stream_skip, buf_position_false]
        congr 1
        omega

/-- **C10.**  `consume_exactly` is atomic: when it returns `False` the whole
    stream state (hence the position reported by `get_file_position(False)`)
    is unchanged; when it returns `True` that position advances by exactly
    the requested number of bytes. -/
theorem C10_consume_exactly_atomic (s s2 : MP3Stream) (n : Nat) (b : Bool)
    (h : s.consume_exactly n = .ok (b, s2)) :
    (b = false → s2 = s) ∧
    (b = true → ∃ p, s.get_file_position false = .ok p ∧
      s2.get_file_position false = .ok (p + n)) := by
  constructor
  · intro hb
    subst hb
    exact consume_exactly_false_eq s s2 n h
  · intro hb
    subst hb
    exact (consume_exactly_advance s s2 n h).2

/-- Applies C10 at concrete streams: a successful 32-byte consume advances
    the reported position from 0 to 32; an impossible 1000-byte consume
    returns `False` leaving the stream untouched. -/
theorem C10_witness :
    (∃ p, c6ApeStream.get_file_position false = .ok p ∧
      (MP3Stream.mk c6ApeStream.file
        ⟨32, true, 0, 0, 82⟩ c6ApeStream.buf c6ApeStream.buf_size 0 0).get_file_position
          false = .ok (p + 32)) ∧
    c6ApeStream.consume_exactly 1000 = .ok (false, c6ApeStream) ∧
    (c6ApeStream = c6ApeStream) :=
  ⟨(C10_consume_exactly_atomic c6ApeStream
      (MP3Stream.mk c6ApeStream.file ⟨32, true, 0, 0, 82⟩ c6ApeStream.buf
        c6ApeStream.buf_size 0 0) 32 true (by decide)).2 rfl,
   by decide,
   (C10_consume_exactly_atomic c6ApeStream c6ApeStream 1000 false (by decide)).1 rfl⟩

theorem except_bind_ok {α β : Type} (e : Except String α) (f : α → Except String β)
    (b : β) (h : (e >>= f) = .ok b) : ∃ a, e = .ok a ∧ f a = .ok b := by
  cases e with
  | error msg => simp [Bind.bind, Except.bind] at h
  | ok a =>
    refine ⟨a, rfl, ?_⟩
    simpa [Bind.bind, Except.bind] using h

theorem ensure_free_fields (s s2 : MP3Stream) (b m : Nat)
    (h : s.ensure_free b m = .ok s2) :
    s2.file = s.file ∧ s2.mad = s.mad ∧ s2.buf = s.buf ∧
    s2.buf_file_position = s.buf_file_position ∧
    s2.buffer_guard_length = s.buffer_guard_length := by
  unfold MP3Stream.ensure_free at h
  simp only [] at h
  split at h
  · split at h
    · exact absurd h (by simp)
    · cases Except.ok.inj h
      exact ⟨rfl, rfl, rfl, rfl, rfl⟩
  · cases Except.ok.inj h
    exact ⟨rfl, rfl, rfl, rfl, rfl⟩

theorem readinto_pair (w : TruncatingFileWrapper) (n : Nat) :
    (w.readinto n).2.file.pos = w.file.pos + (w.readinto n).1.length ∧
    (w.readinto n).2.truncated_len = w.truncated_len ∧
    (w.readinto n).2.file.data = w.file.data := by
  unfold TruncatingFileWrapper.readinto PyFile.read
  exact ⟨rfl, rfl, rfl⟩

theorem read_into_buf_spec (s s2 : MP3Stream) (nb want a : Nat)
    (h : s.read_into_buf nb want = .ok (a, s2)) :
    s2.buffer_guard_length = s.buffer_guard_length ∧
    s2.file.file.pos = s.file.file.pos + a ∧
    s2.mad = s.mad ∧
    s2.buf_file_position = s.buf_file_position ∧
    s2.file.truncated_len = s.file.truncated_len ∧
    s2.file.file.data = s.file.file.data := by
  unfold MP3Stream.read_into_buf at h
  obtain ⟨s3, hfree, h⟩ := except_bind_ok _ _ _ h
  obtain ⟨hf, hm, hb, hp, hg⟩ := ensure_free_fields s s3 nb (max want MIN_READ_SIZE) hfree
  simp only [] at h
  obtain ⟨ha, hs⟩ := Prod.mk.inj (Except.ok.inj h)
  subst ha
  subst hs
  obtain ⟨hrp, hrt, hrd⟩ := readinto_pair s3.file (s3.buf_size - nb)
  refine ⟨hg, ?_, hm, hp, ?_, ?_⟩
  · rw [hrp, hf]
  · rw [hrt, hf]
  · rw [hrd, hf]

theorem refillNeeded_iff (s : MP3Stream) (fm : Bool) (nb : Option Nat) :
    refillNeeded s fm nb = true ↔
      (0 < (match nb with
        | none => MIN_READ_SIZE
        | some n => n - (s.mad.buffer_length -
            ((if fm then s.mad.next_frame_offset else s.mad.this_frame_offset) +
              s.mad.skiplen))) ∧
       s.buffer_guard_length = 0) := by
  unfold refillNeeded
  simp only [Bool.and_eq_true, decide_eq_true_eq]

theorem ensure_available_not_needed (s s2 : MP3Stream) (fm : Bool) (nb : Option Nat)
    (a v : Nat) (h : s.ensure_available fm nb = .ok (a, v, s2))
    (hrn : refillNeeded s fm nb = false) : a = 0 ∧ s2 = s := by
  have hC : ¬ (0 < (match nb with
      | none => MIN_READ_SIZE
      | some n => n - (s.mad.buffer_length -
          ((if fm then s.mad.next_frame_offset else s.mad.this_frame_offset) +
            s.mad.skiplen))) ∧
      s.buffer_guard_length = 0) := by
    rw [← refillNeeded_iff]
    simp [hrn]
  unfold MP3Stream.ensure_available at h
  simp only [] at h
  set con := (if fm = true then s.mad.next_frame_offset else s.mad.this_frame_offset) +
    s.mad.skiplen with hcon
  set bn := (match nb with
    | none => MIN_READ_SIZE
    | some n => n - (s.mad.buffer_length - con)) with hbn
  by_cases hA : s.mad.buffer_length < con
  · rw [if_pos hA] at h
    exact absurd h (by simp)
  · rw [if_neg hA] at h
    rw [if_neg hC] at h
    obtain ⟨ha, hv⟩ := Prod.mk.inj (Except.ok.inj h)
    obtain ⟨-, hs⟩ := Prod.mk.inj hv
    exact ⟨ha.symm, hs.symm⟩

theorem ensure_available_refill (s s2 : MP3Stream) (fm : Bool) (nb : Option Nat)
    (a v : Nat) (h : s.ensure_available fm nb = .ok (a, v, s2))
    (hrn : refillNeeded s fm nb = true) :
    s.buffer_guard_length = 0 ∧
    ((if fm then s.mad.next_frame_offset else s.mad.this_frame_offset) + s.mad.skiplen)
      ≤ s.mad.buffer_length ∧
    v = s.mad.buffer_length -
      ((if fm then s.mad.next_frame_offset else s.mad.this_frame_offset) + s.mad.skiplen)
      + a ∧
    s2.mad.skiplen = 0 ∧ s2.mad.sync = true ∧ s2.mad.this_frame_offset = 0 ∧
    s2.mad.next_frame_offset = 0 ∧ s2.mad.buffer_length = v ∧
    s2.buf_file_position = s.buf_file_position +
      ((if fm then s.mad.next_frame_offset else s.mad.this_frame_offset) + s.mad.skiplen) ∧
    s2.file.truncated_len = s.file.truncated_len ∧
    s2.file.file.data = s.file.file.data ∧
    ((a = MAD_BUFFER_GUARD ∧ s2.buffer_guard_length = MAD_BUFFER_GUARD ∧
        s2.file.file.pos = s.file.file.pos) ∨
      (a ≠ 0 ∧ s2.buffer_guard_length = 0 ∧
        s2.file.file.pos = s.file.file.pos + a)) := by
  rw [refillNeeded_iff] at hrn
  unfold MP3Stream.ensure_available at h
  simp only [] at h
  set con := (if fm = true then s.mad.next_frame_offset else s.mad.this_frame_offset) +
    s.mad.skiplen with hcon
  set bn := (match nb with
    | none => MIN_READ_SIZE
    | some n => n - (s.mad.buffer_length - con)) with hbn
  by_cases hA : s.mad.buffer_length < con
  · rw [if_pos hA] at h
    exact absurd h (by simp)
  · rw [if_neg hA] at h
    rw [if_pos hrn] at h
    obtain ⟨r, hread, h⟩ := except_bind_ok _ _ _ h
    obtain ⟨ba, s3⟩ := r
    obtain ⟨hg3, hp3, hm3, hb3, ht3, hd3⟩ := read_into_buf_spec _ _ _ _ _ hread
    simp only [] at hg3 hp3 hm3 hb3 ht3 hd3
    simp only [] at h
    by_cases hba : ba = 0
    · rw [if_pos hba] at h
      subst hba
      unfold MP3Stream.add_buffer_guard at h
      simp only [] at h
      obtain ⟨ha, hv⟩ := Prod.mk.inj (Except.ok.inj h)
      obtain ⟨hv2, hs⟩ := Prod.mk.inj hv
      subst ha
      rw [← hs]
      simp only [mad_stream_buffer]
      refine ⟨hrn.2, by omega, by omega, trivial, trivial, trivial, trivial, by omega, ?_, ?_, ?_, ?_⟩
      · rw [hb3]
      · rw [ht3]
      · rw [hd3]
      · left
        refine ⟨trivial, trivial, ?_⟩
        rw [hp3]
        omega
    · rw [if_neg hba] at h
      obtain ⟨ha, hv⟩ := Prod.mk.inj (Except.ok.inj h)
      obtain ⟨hv2, hs⟩ := Prod.mk.inj hv
      subst ha
      rw [← hs]
      simp only [mad_stream_buffer]
      refine ⟨hrn.2, by omega, by omega, trivial, trivial, trivial, trivial, by omega, ?_, ?_, ?_, ?_⟩
      · rw [hb3]
      · rw [ht3]
      · rw [hd3]
      · right
        refine ⟨hba, ?_, ?_⟩
        · rw [hg3, hrn.2]
        · rw [hp3]

theorem except_map_ok {α β : Type} (e : Except String α) (f : α → β) (b : β)
    (h : e.map f = .ok b) : ∃ a, e = .ok a ∧ f a = b := by
  cases e with
  | error msg => simp [Except.map] at h
  | ok a =>
    refine ⟨a, rfl, ?_⟩
    simpa [Except.map] using h

theorem consume_exactly_guard (s s2 : MP3Stream) (n : Nat) (b : Bool)
    (h : s.consume_exactly n = .ok (b, s2)) :
    s2.buffer_guard_length = s.buffer_guard_length := by
  cases b
  · rw [consume_exactly_false_eq s s2 n h]
  · exact (consume_exactly_advance s s2 n h).1

theorem ensure_available_guard (s s2 : MP3Stream) (fm : Bool) (nb : Option Nat)
    (a v : Nat) (h : s.ensure_available fm nb = .ok (a, v, s2)) :
    s2.buffer_guard_length = s.buffer_guard_length ∨
      (s.buffer_guard_length = 0 ∧ s2.buffer_guard_length = MAD_BUFFER_GUARD) := by
  cases hrn : refillNeeded s fm nb with
  | false =>
    rw [(ensure_available_not_needed s s2 fm nb a v h hrn).2]
    exact Or.inl rfl
  | true =>
    obtain ⟨hg0, -, -, -, -, -, -, -, -, -, -, hd⟩ :=
      ensure_available_refill s s2 fm nb a v h hrn
    rcases hd with ⟨-, hg2, -⟩ | ⟨-, hg2, -⟩
    · exact Or.inr ⟨hg0, hg2⟩
    · exact Or.inl (by rw [hg2, hg0])

theorem peek_state (s s2 : MP3Stream) (n : Nat) (hdr : List Nat)
    (h : s.peek n = .ok (hdr, s2)) :
    ∃ a v, s.ensure_available false (some n) = .ok (a, v, s2) := by
  unfold MP3Stream.peek at h
  obtain ⟨r, he, h⟩ := except_bind_ok _ _ _ h
  obtain ⟨a, v, s3⟩ := r
  simp only [] at h
  obtain ⟨-, hs⟩ := Prod.mk.inj (Except.ok.inj h)
  subst hs
  exact ⟨a, v, he⟩

theorem applyStreamOp_guard (s s2 : MP3Stream) (op : StreamOp)
    (h : applyStreamOp s op = .ok s2) :
    s2.buffer_guard_length = s.buffer_guard_length ∨
      (s.buffer_guard_length = 0 ∧ s2.buffer_guard_length = MAD_BUFFER_GUARD) := by
  cases op with
  | ensureAvail fm nb =>
    simp only [applyStreamOp] at h
    obtain ⟨r, he, hf⟩ := except_map_ok _ _ _ h
    obtain ⟨a, v, s3⟩ := r
    simp only [] at hf
    subst hf
    exact ensure_available_guard s s3 fm nb a v he
  | peekOp n =>
    simp only [applyStreamOp] at h
    obtain ⟨r, he, hf⟩ := except_map_ok _ _ _ h
    obtain ⟨hdr, s3⟩ := r
    simp only [] at hf
    subst hf
    obtain ⟨a, v, he2⟩ := peek_state s s3 n hdr he
    exact ensure_available_guard s s3 false (some n) a v he2
  | consumeOp n =>
    simp only [applyStreamOp] at h
    obtain ⟨r, he, hf⟩ := except_map_ok _ _ _ h
    obtain ⟨b, s3⟩ := r
    simp only [] at hf
    subst hf
    exact Or.inl (consume_exactly_guard s s3 n b he)
  | decodeOp step =>
    simp only [applyStreamOp] at h
    obtain ⟨mad, he, hf⟩ := except_map_ok _ _ _ h
    subst hf
    exact Or.inl rfl

theorem streamStates_head (s : MP3Stream) (ops : List StreamOp) :
    ∃ rest, streamStates s ops = s :: rest := by
  cases ops with
  | nil => exact ⟨[], rfl⟩
  | cons op ops =>
    unfold streamStates
    cases applyStreamOp s op
    · exact ⟨[], rfl⟩
    · exact ⟨_, rfl⟩

theorem guardAppendCount_zero_of_nonzero :
    ∀ (ops : List StreamOp) (s : MP3Stream), s.buffer_guard_length ≠ 0 →
      guardAppendCount (streamStates s ops) = 0
  | [], s, hg => rfl
  | op :: ops, s, hg => by
    unfold streamStates
    cases hap : applyStreamOp s op with
    | error e => rfl
    | ok s2 =>
      have hg2 : s2.buffer_guard_length ≠ 0 := by
        rcases applyStreamOp_guard s s2 op hap with heq | ⟨h0, -⟩
        · rw [heq]
          exact hg
        · exact absurd h0 hg
      obtain ⟨rest, hrest⟩ := streamStates_head s2 ops
      simp only []
      rw [hrest]
      show (if s.buffer_guard_length = 0 ∧ s2.buffer_guard_length ≠ 0 then 1 else 0) +
        guardAppendCount (s2 :: rest) = 0
      rw [if_neg (fun hcc => hg hcc.1), ← hrest,
        guardAppendCount_zero_of_nonzero ops s2 hg2]

theorem guardAppendCount_le_one :
    ∀ (ops : List StreamOp) (s : MP3Stream),
      guardAppendCount (streamStates s ops) ≤ 1
  | [], s => Nat.zero_le 1
  | op :: ops, s => by
    unfold streamStates
    cases hap : applyStreamOp s op with
    | error e => exact Nat.zero_le 1
    | ok s2 =>
      obtain ⟨rest, hrest⟩ := streamStates_head s2 ops
      simp only []
      rw [hrest]
      show (if s.buffer_guard_length = 0 ∧ s2.buffer_guard_length ≠ 0 then 1 else 0) +
        guardAppendCount (s2 :: rest) ≤ 1
      rw [← hrest]
      by_cases hcc : s.buffer_guard_length = 0 ∧ s2.buffer_guard_length ≠ 0
      · rw [if_pos hcc, guardAppendCount_zero_of_nonzero ops s2 hcc.2]
      · rw [if_neg hcc]
        simpa using guardAppendCount_le_one ops s2

/-- **C8.**  Guard lifecycle of one scan's window: once a guard has been
    appended every further `_ensure_available` call adds zero bytes and
    leaves the state untouched; a guard appears in a call exactly when that
    call refills at end of input and the file read returns zero bytes; and
    over any sequence of window operations at most one guard region is ever
    appended. -/
theorem C8_guard_lifecycle :
    (∀ (s s2 : MP3Stream) (fm : Bool) (nb : Option Nat) (a v : Nat),
      s.ensure_available fm nb = .ok (a, v, s2) → s.buffer_guard_length ≠ 0 →
        a = 0 ∧ s2 = s) ∧
    (∀ (s s2 : MP3Stream) (fm : Bool) (nb : Option Nat) (a v : Nat),
      s.ensure_available fm nb = .ok (a, v, s2) →
        ((s.buffer_guard_length = 0 ∧ s2.buffer_guard_length ≠ 0) ↔
          (refillNeeded s fm nb = true ∧ s2.file.file.pos = s.file.file.pos))) ∧
    (∀ (ops : List StreamOp) (s : MP3Stream),
      guardAppendCount (streamStates s ops) ≤ 1) := by
  refine ⟨?_, ?_, fun ops s => guardAppendCount_le_one ops s⟩
  · intro s s2 fm nb a v h hg
    have hrn : refillNeeded s fm nb = false := by
      unfold refillNeeded
      simp [hg]
    exact ensure_available_not_needed s s2 fm nb a v h hrn
  · intro s s2 fm nb a v h
    constructor
    · rintro ⟨hg0, hg2⟩
      cases hrn : refillNeeded s fm nb with
      | false =>
        obtain ⟨-, hs⟩ := ensure_available_not_needed s s2 fm nb a v h hrn
        rw [hs] at hg2
        exact absurd hg0 hg2
      | true =>
        obtain ⟨-, -, -, -, -, -, -, -, -, -, -, hd⟩ :=
          ensure_available_refill s s2 fm nb a v h hrn
        rcases hd with ⟨-, -, hp⟩ | ⟨-, hgz, -⟩
        · exact ⟨rfl, hp⟩
        · exact absurd hgz hg2
    · rintro ⟨hrn, hp⟩
      obtain ⟨hg0, -, -, -, -, -, -, -, -, -, -, hd⟩ :=
        ensure_available_refill s s2 fm nb a v h hrn
      rcases hd with ⟨-, hgz, -⟩ | ⟨ha, -, hpa⟩
      · refine ⟨hg0, ?_⟩
        rw [hgz]
        simp [MAD_BUFFER_GUARD]
      · rw [hp] at hpa
        omega

/-- Applies C8's conjuncts at concrete windows: refilling the guarded empty
    window is a no-op adding zero bytes, and the refill that appended the
    guard was exactly an end-of-input read of zero bytes. -/
theorem C8_witness :
    ((0 : Nat) = 0 ∧ emptyStreamGuarded = emptyStreamGuarded) ∧
    (refillNeeded emptyStream true none = true ∧
      emptyStreamGuarded.file.file.pos = emptyStream.file.file.pos) :=
  ⟨C8_guard_lifecycle.1 emptyStreamGuarded emptyStreamGuarded true none 0 8
      (by decide) (by decide),
   (C8_guard_lifecycle.2.1 emptyStream emptyStreamGuarded true none 8 8
      (by decide)).mp ⟨rfl, by decide⟩⟩

theorem bind_ok_eq {α β : Type} (a : α) (f : α → Except String β) :
    ((.ok a : Except String α) >>= f) = f a := rfl

theorem pure_bind_eq {α β : Type} (a : α) (f : α → Except String β) :
    ((pure a : Except String α) >>= f) = f a := rfl

theorem ensure_available_noop_avail (s s2 : MP3Stream) (fm : Bool) (nb : Option Nat)
    (a v : Nat) (h : s.ensure_available fm nb = .ok (a, v, s2))
    (hrn : refillNeeded s fm nb = false) :
    v = s.mad.buffer_length -
      ((if fm then s.mad.next_frame_offset else s.mad.this_frame_offset) +
        s.mad.skiplen) ∧
    ((if fm then s.mad.next_frame_offset else s.mad.this_frame_offset) + s.mad.skiplen)
      ≤ s.mad.buffer_length := by
  have hC : ¬ (0 < (match nb with
      | none => MIN_READ_SIZE
      | some n => n - (s.mad.buffer_length -
          ((if fm then s.mad.next_frame_offset else s.mad.this_frame_offset) +
            s.mad.skiplen))) ∧
      s.buffer_guard_length = 0) := by
    rw [← refillNeeded_iff]
    simp [hrn]
  unfold MP3Stream.ensure_available at h
  simp only [] at h
  set con := (if fm = true then s.mad.next_frame_offset else s.mad.this_frame_offset) +
    s.mad.skiplen with hcon
  set bn := (match nb with
    | none => MIN_READ_SIZE
    | some n => n - (s.mad.buffer_length - con)) with hbn
  by_cases hA : s.mad.buffer_length < con
  · rw [if_pos hA] at h
    exact absurd h (by simp)
  · rw [if_neg hA] at h
    rw [if_neg hC] at h
    obtain ⟨-, hv⟩ := Prod.mk.inj (Except.ok.inj h)
    obtain ⟨hv2, -⟩ := Prod.mk.inj hv
    exact ⟨hv2.symm, by omega⟩

theorem ensure_available_false_inv (s s2 : MP3Stream) (nb : Option Nat) (a v : Nat)
    (h : s.ensure_available false nb = .ok (a, v, s2)) :
    v = s2.mad.buffer_length - (s2.mad.this_frame_offset + s2.mad.skiplen) ∧
    s2.mad.this_frame_offset + s2.mad.skiplen ≤ s2.mad.buffer_length ∧
    (∃ p, s.get_file_position false = .ok p ∧ s2.get_file_position false = .ok p) := by
  cases hrn : refillNeeded s false nb with
  | false =>
    obtain ⟨-, hs⟩ := ensure_available_not_needed s s2 false nb a v h hrn
    obtain ⟨hv, hle⟩ := ensure_available_noop_avail s s2 false nb a v h hrn
    simp only [Bool.false_eq_true, if_false] at hv hle
    subst hs
    refine ⟨hv, hle, s2.buf_file_position +
      min (s2.mad.this_frame_offset + s2.mad.skiplen)
        (s2.mad.buffer_length - s2.buffer_guard_length), ?_, ?_⟩ <;>
      rw [get_file_position_eval s2 false (by rw [buf_position_false]; omega),
        buf_position_false]
  | true =>
    obtain ⟨hg0, hle, hv, hsk, hsy, hth, hnx, hbl, hbf, -, -, -⟩ :=
      ensure_available_refill s s2 false nb a v h hrn
    simp only [Bool.false_eq_true, if_false] at hle hv hbf
    refine ⟨by omega, by omega,
      s.buf_file_position + (s.mad.this_frame_offset + s.mad.skiplen), ?_, ?_⟩
    · rw [get_file_position_eval s false (by rw [buf_position_false]; omega),
        buf_position_false]
      congr 1
      omega
    · rw [get_file_position_eval s2 false (by rw [buf_position_false]; omega),
        buf_position_false]
      rw [hth, hsk, hbf]
      simp

theorem peek_spec (s s2 : MP3Stream) (n : Nat) (hdr : List Nat)
    (h : s.peek n = .ok (hdr, s2)) :
    hdr.length ≤ s2.mad.buffer_length - (s2.mad.this_frame_offset + s2.mad.skiplen) -
      s2.buffer_guard_length ∧
    (∃ p, s.get_file_position false = .ok p ∧ s2.get_file_position false = .ok p) := by
  unfold MP3Stream.peek at h
  obtain ⟨r, he, h⟩ := except_bind_ok _ _ _ h
  obtain ⟨a, v, s3⟩ := r
  simp only [] at h
  obtain ⟨hh, hs⟩ := Prod.mk.inj (Except.ok.inj h)
  subst hs
  obtain ⟨hv, hle, hpos⟩ := ensure_available_false_inv s s3 (some n) a v he
  refine ⟨?_, hpos⟩
  rw [← hh]
  simp only [List.length_take]
  omega

theorem consume_exactly_in_buffer (s : MP3Stream) (n : Nat)
    (h : n + (s.mad.this_frame_offset + s.mad.skiplen) + s.buffer_guard_length ≤
      s.mad.buffer_length) :
    s.consume_exactly n = .ok (true, { s with mad := mad_stream_skip s.mad n }) := by
  unfold MP3Stream.consume_exactly
  simp only []
  rw [if_neg (by omega), if_neg (by omega)]

theorem detect_tags_step_consumed (s s1 s2 : MP3Stream) (hdr : List Nat)
    (tt : String) (hl len : Nat) (errs : List String)
    (hpeek : s.peek 32 = .ok (hdr, s1))
    (hmatch : matchHeader hdr = some (tt, hl, len, errs))
    (hcons : s1.consume_exactly len = .ok (true, s2)) :
    ∃ p, s.get_file_position false = .ok p ∧
      detect_tags_step s = .ok (s2, some (MPart.tag p (p + len) tt errs)) := by
  obtain ⟨-, p, hp, hp1⟩ := peek_spec s s1 32 hdr hpeek
  obtain ⟨-, q, hq1, hq2⟩ := consume_exactly_advance s1 s2 len hcons
  have hpq : q = p := by
    rw [hp1] at hq1
    exact (Except.ok.inj hq1).symm
  subst hpq
  refine ⟨q, hp, ?_⟩
  unfold detect_tags_step
  rw [hp, bind_ok_eq, hpeek, bind_ok_eq]
  simp only []
  rw [hmatch]
  simp only []
  rw [hcons, bind_ok_eq]
  simp only []
  rw [if_pos trivial, pure_bind_eq]
  simp only []
  rw [hq2, bind_ok_eq]

/-- **C5.**  The two asymmetric APEv2 flag cases of `_detect_tags`
    (scanner.py lines 120-133).  Given a peeked 32-byte block that matches
    only the APEv2 magic and parses to `(flags, length, errs)`: if the
    this-is-a-header bit `0x20000000` is absent, the stray-footer error is
    recorded and exactly the 32 header bytes are consumed; if it is present
    but the contains-header bit `0x80000000` is absent, the says-no-header
    error is recorded and the declared length (which, that bit being clear,
    carries no +32 allowance) is consumed. -/
theorem C5_apev2_flag_asymmetry (s s1 s2 : MP3Stream) (hdr : List Nat)
    (flags length : Nat) (errs : List String)
    (hpeek : s.peek 32 = .ok (hdr, s1))
    (htag : pyStartsWith hdr tagMagic = false)
    (hid3 : pyStartsWith hdr id3Magic = false)
    (hape : pyStartsWith hdr apeMagic = true)
    (hlen : 32 ≤ hdr.length)
    (hparse : parse_apev2_header_footer hdr = (flags, length, errs)) :
    (flags &&& 0x20000000 = 0 →
      s1.consume_exactly 32 = .ok (true, s2) →
      ∃ p, s.get_file_position false = .ok p ∧
        detect_tags_step s = .ok (s2, some (MPart.tag p (p + 32) "APEv2" (errs ++
          ["APEv2 footer found without header, not at end of file, skipping stray footer"])))) ∧
    (flags &&& 0x20000000 ≠ 0 → flags &&& 0x80000000 = 0 →
      s1.consume_exactly length = .ok (true, s2) →
      ∃ p, s.get_file_position false = .ok p ∧
        detect_tags_step s = .ok (s2, some (MPart.tag p (p + length) "APEv2" (errs ++
          ["APEv2 header says tag doesn't have a header"])))) := by
  constructor
  · intro hA hcons
    have hm : matchHeader hdr = some ("APEv2", 32, 32, errs ++
        ["APEv2 footer found without header, not at end of file, skipping stray footer"]) := by
      unfold matchHeader
      rw [if_neg (by simp [htag]), if_neg (by simp [hid3]),
        if_pos (show pyStartsWith hdr apeMagic = true ∧ 32 ≤ hdr.length from ⟨hape, hlen⟩),
        hparse]
      simp only []
      rw [if_pos hA]
    exact detect_tags_step_consumed s s1 s2 hdr "APEv2" 32 32 _ hpeek hm hcons
  · intro hA hB hcons
    have hm : matchHeader hdr = some ("APEv2", 32, length, errs ++
        ["APEv2 header says tag doesn't have a header"]) := by
      unfold matchHeader
      rw [if_neg (by simp [htag]), if_neg (by simp [hid3]),
        if_pos (show pyStartsWith hdr apeMagic = true ∧ 32 ≤ hdr.length from ⟨hape, hlen⟩),
        hparse]
      simp only []
      rw [if_neg hA, if_pos hB]
    exact detect_tags_step_consumed s s1 s2 hdr "APEv2" 32 length _ hpeek hm hcons

/-- Applies C5's two cases at concrete windows: `apeStrayData` (flags 0, a
    stray footer, 32 bytes consumed) and `apeNoHdrData` (flags `0x20000000`,
    declared length 40 consumed, says-no-header error recorded). -/
theorem C5_witness :
    (∃ p, apeStrayStream.get_file_position false = Except.ok p ∧
      detect_tags_step apeStrayStream = Except.ok
        ({ apeStrayStream with mad := mad_stream_skip apeStrayStream.mad 32 },
          some (MPart.tag p (p + 32) "APEv2"
            ["APEv2 footer found without header, not at end of file, skipping stray footer"]))) ∧
    (∃ p, apeNoHdrStream.get_file_position false = Except.ok p ∧
      detect_tags_step apeNoHdrStream = Except.ok
        ({ apeNoHdrStream with mad := mad_stream_skip apeNoHdrStream.mad 40 },
          some (MPart.tag p (p + 40) "APEv2"
            ["APEv2 header says tag doesn't have a header"]))) :=
  ⟨(C5_apev2_flag_asymmetry apeStrayStream apeStrayStream
      { apeStrayStream with mad := mad_stream_skip apeStrayStream.mad 32 }
      (apeStrayData.take 32) 0 1 [] (by decide) (by decide) (by decide) (by decide)
      (by decide) (by decide)).1 (by decide) (by decide),
   (C5_apev2_flag_asymmetry apeNoHdrStream apeNoHdrStream
      { apeNoHdrStream with mad := mad_stream_skip apeNoHdrStream.mad 40 }
      (apeNoHdrData.take 32) 0x20000000 40 [] (by decide) (by decide) (by decide)
      (by decide) (by decide) (by decide)).2 (by decide) (by decide) (by decide)⟩

/-- **C6 (amended).**  A forward-detected APEv2 tag whose 8-byte reserved
    field is non-zero and whose flags carry BOTH the this-is-a-header bit
    `0x20000000` and the contains-header bit `0x80000000` yields an invalid
    Tag part carrying the reserved-section error, and (the consume of the
    declared length succeeding) spans exactly `declared_length + 32` bytes. -/
theorem C6_reserved_nonzero_both_bits (s s1 s2 : MP3Stream) (hdr : List Nat)
    (hpeek : s.peek 32 = .ok (hdr, s1))
    (htag : pyStartsWith hdr tagMagic = false)
    (hid3 : pyStartsWith hdr id3Magic = false)
    (hape : pyStartsWith hdr apeMagic = true)
    (hlen : 32 ≤ hdr.length)
    (hres : hdr.getD 24 0 + hdr.getD 25 0 * 2 ^ 8 + hdr.getD 26 0 * 2 ^ 16 +
      hdr.getD 27 0 * 2 ^ 24 + hdr.getD 28 0 * 2 ^ 32 + hdr.getD 29 0 * 2 ^ 40 +
      hdr.getD 30 0 * 2 ^ 48 + hdr.getD 31 0 * 2 ^ 56 ≠ 0)
    (hb29 : (hdr.getD 20 0 + hdr.getD 21 0 * 2 ^ 8 + hdr.getD 22 0 * 2 ^ 16 +
      hdr.getD 23 0 * 2 ^ 24) &&& 0x20000000 ≠ 0)
    (hb31 : (hdr.getD 20 0 + hdr.getD 21 0 * 2 ^ 8 + hdr.getD 22 0 * 2 ^ 16 +
      hdr.getD 23 0 * 2 ^ 24) &&& 0x80000000 ≠ 0)
    (hcons : s1.consume_exactly (hdr.getD 12 0 + hdr.getD 13 0 * 2 ^ 8 +
      hdr.getD 14 0 * 2 ^ 16 + hdr.getD 15 0 * 2 ^ 24 + 32) = .ok (true, s2)) :
    ∃ p part, s.get_file_position false = .ok p ∧
      detect_tags_step s = .ok (s2, some part) ∧
      part.valid = false ∧
      "reserved section non-zero" ∈ part.errorMessages ∧
      part.start = p ∧
      part.stop = p + (hdr.getD 12 0 + hdr.getD 13 0 * 2 ^ 8 +
        hdr.getD 14 0 * 2 ^ 16 + hdr.getD 15 0 * 2 ^ 24 + 32) := by
  have hparse : parse_apev2_header_footer hdr =
      ((hdr.getD 20 0 + hdr.getD 21 0 * 2 ^ 8 + hdr.getD 22 0 * 2 ^ 16 +
        hdr.getD 23 0 * 2 ^ 24),
       (hdr.getD 12 0 + hdr.getD 13 0 * 2 ^ 8 + hdr.getD 14 0 * 2 ^ 16 +
        hdr.getD 15 0 * 2 ^ 24 + 32),
       ((if (hdr.getD 20 0 + hdr.getD 21 0 * 2 ^ 8 + hdr.getD 22 0 * 2 ^ 16 +
          hdr.getD 23 0 * 2 ^ 24) &&& 0x1ffffff8 ≠ 0 then ["invalid flags"] else []) ++
        ["reserved section non-zero"])) := by
    unfold parse_apev2_header_footer
    simp only []
    rw [if_pos hres, if_pos hb31]
  have hm : matchHeader hdr = some ("APEv2", 32,
      (hdr.getD 12 0 + hdr.getD 13 0 * 2 ^ 8 + hdr.getD 14 0 * 2 ^ 16 +
        hdr.getD 15 0 * 2 ^ 24 + 32),
      ((if (hdr.getD 20 0 + hdr.getD 21 0 * 2 ^ 8 + hdr.getD 22 0 * 2 ^ 16 +
         hdr.getD 23 0 * 2 ^ 24) &&& 0x1ffffff8 ≠ 0 then ["invalid flags"] else []) ++
       ["reserved section non-zero"])) := by
    unfold matchHeader
    rw [if_neg (by simp [htag]), if_neg (by simp [hid3]),
      if_pos (show pyStartsWith hdr apeMagic = true ∧ 32 ≤ hdr.length from ⟨hape, hlen⟩),
      hparse]
    simp only []
    rw [if_neg hb29, if_neg hb31]
  obtain ⟨p, hp, hstep⟩ := detect_tags_step_consumed s s1 s2 hdr "APEv2" 32 _ _ hpeek hm hcons
  refine ⟨p, _, hp, hstep, ?_, ?_, rfl, rfl⟩
  · by_cases hE : (hdr.getD 20 0 + hdr.getD 21 0 * 2 ^ 8 + hdr.getD 22 0 * 2 ^ 16 +
        hdr.getD 23 0 * 2 ^ 24) &&& 0x1ffffff8 ≠ 0 <;>
      simp [MPart.valid, MPart.errorMessages, hE]
  · simp [MPart.errorMessages]

/-- Applies C6 at a concrete window: `apeBothData` (flags `0xA0000000`,
    declared length 50, reserved field 1) yields an invalid 82-byte Tag
    part carrying the reserved-section error. -/
theorem C6_witness :
    ∃ p part, apeBothStream.get_file_position false = Except.ok p ∧
      detect_tags_step apeBothStream = Except.ok
        ({ apeBothStream with mad := mad_stream_skip apeBothStream.mad 82 }, some part) ∧
      part.valid = false ∧
      "reserved section non-zero" ∈ part.errorMessages ∧
      part.start = p ∧
      part.stop = p + 82 :=
  C6_reserved_nonzero_both_bits apeBothStream apeBothStream
    { apeBothStream with mad := mad_stream_skip apeBothStream.mad 82 }
    (apeBothData.take 32) (by decide) (by decide) (by decide) (by decide)
    (by decide) (by decide) (by decide) (by decide) (by decide)

theorem and_shiftLeft_mask (a r m k : Nat) (hr : r < 2 ^ k) :
    (a * 2 ^ k + r) &&& (m <<< k) = (a &&& m) <<< k := by
  apply Nat.eq_of_testBit_eq
  intro i
  by_cases hik : k ≤ i
  · have hdiv : (a * 2 ^ k + r) >>> k = a := by
      rw [Nat.shiftRight_eq_div_pow, Nat.mul_comm,
        Nat.mul_add_div (Nat.two_pow_pos k), Nat.div_eq_of_lt hr, Nat.add_zero]
    have h2 : a.testBit (i - k) = (a * 2 ^ k + r).testBit i := by
      conv_lhs => rw [← hdiv]
      rw [Nat.testBit_shiftRight]
      congr 1
      omega
    simp [Nat.testBit_and, Nat.testBit_shiftLeft, hik, ← h2, Bool.and_comm,
      Bool.and_left_comm]
  · simp [Nat.testBit_and, Nat.testBit_shiftLeft, hik]

theorem shiftLeft_shiftRight_cancel (x k s : Nat) (h : s ≤ k) :
    (x <<< k) >>> s = x <<< (k - s) := by
  rw [Nat.shiftLeft_eq, Nat.shiftLeft_eq, Nat.shiftRight_eq_div_pow]
  have hk : 2 ^ k = 2 ^ (k - s) * 2 ^ s := by
    rw [← pow_add]
    congr 1
    omega
  rw [hk, ← Nat.mul_assoc, Nat.mul_div_cancel _ (Nat.two_pow_pos s)]

theorem and_127_high_byte (x y : Nat) : (x * 2 ^ 8 + y) &&& 127 = y &&& 127 := by
  have h127 : (127 : Nat) = 2 ^ 7 - 1 := by norm_num
  rw [h127, Nat.and_pow_two_sub_one_eq_mod, Nat.and_pow_two_sub_one_eq_mod]
  omega

theorem synchsafe_eq (b0 b1 b2 b3 : Nat) (h1 : b1 < 256) (h2 : b2 < 256)
    (h3 : b3 < 256) :
    (((b0 * 2 ^ 24 + b1 * 2 ^ 16 + b2 * 2 ^ 8 + b3) &&& 0x7f000000) >>> 3) |||
    (((b0 * 2 ^ 24 + b1 * 2 ^ 16 + b2 * 2 ^ 8 + b3) &&& 0x007f0000) >>> 2) |||
    (((b0 * 2 ^ 24 + b1 * 2 ^ 16 + b2 * 2 ^ 8 + b3) &&& 0x00007f00) >>> 1) |||
    ((b0 * 2 ^ 24 + b1 * 2 ^ 16 + b2 * 2 ^ 8 + b3) &&& 0x0000007f) =
    ((b0 &&& 0x7f) <<< 21) ||| ((b1 &&& 0x7f) <<< 14) |||
    ((b2 &&& 0x7f) <<< 7) ||| (b3 &&& 0x7f) := by
  have e1 : b0 * 2 ^ 24 + b1 * 2 ^ 16 + b2 * 2 ^ 8 + b3 =
      b0 * 2 ^ 24 + (b1 * 2 ^ 16 + b2 * 2 ^ 8 + b3) := by ring
  have e2 : b0 * 2 ^ 24 + b1 * 2 ^ 16 + b2 * 2 ^ 8 + b3 =
      (b0 * 2 ^ 8 + b1) * 2 ^ 16 + (b2 * 2 ^ 8 + b3) := by ring
  have e3 : b0 * 2 ^ 24 + b1 * 2 ^ 16 + b2 * 2 ^ 8 + b3 =
      ((b0 * 2 ^ 8 + b1) * 2 ^ 8 + b2) * 2 ^ 8 + b3 := by ring
  have m1 : (0x7f000000 : Nat) = 127 <<< 24 := by decide
  have m2 : (0x007f0000 : Nat) = 127 <<< 16 := by decide
  have m3 : (0x00007f00 : Nat) = 127 <<< 8 := by decide
  have t1 : ((b0 * 2 ^ 24 + b1 * 2 ^ 16 + b2 * 2 ^ 8 + b3) &&& 0x7f000000) >>> 3 =
      (b0 &&& 127) <<< 21 := by
    rw [m1, e1, and_shiftLeft_mask _ _ _ _ (by omega),
      shiftLeft_shiftRight_cancel _ _ _ (by omega)]
  have t2 : ((b0 * 2 ^ 24 + b1 * 2 ^ 16 + b2 * 2 ^ 8 + b3) &&& 0x007f0000) >>> 2 =
      (b1 &&& 127) <<< 14 := by
    rw [m2, e2, and_shiftLeft_mask _ _ _ _ (by omega), and_127_high_byte,
      shiftLeft_shiftRight_cancel _ _ _ (by omega)]
  have t3 : ((b0 * 2 ^ 24 + b1 * 2 ^ 16 + b2 * 2 ^ 8 + b3) &&& 0x00007f00) >>> 1 =
      (b2 &&& 127) <<< 7 := by
    rw [m3, e3, and_shiftLeft_mask _ _ _ _ (by omega), and_127_high_byte,
      shiftLeft_shiftRight_cancel _ _ _ (by omega)]
  have t4 : (b0 * 2 ^ 24 + b1 * 2 ^ 16 + b2 * 2 ^ 8 + b3) &&& 0x0000007f =
      b3 &&& 127 := by
    have h127 : (0x0000007f : Nat) = 2 ^ 7 - 1 := by norm_num
    rw [h127, Nat.and_pow_two_sub_one_eq_mod, Nat.and_pow_two_sub_one_eq_mod]
    omega
  rw [t1, t2, t3, t4]

/-- **C3.**  First, for every header whose length-field bytes `b0 b1 b2 b3`
    are bytes, the tag length `_parse_id3v2_header_footer` computes equals
    the synchsafe form `((b0 & 0x7f) << 21 | (b1 & 0x7f) << 14 |
    (b2 & 0x7f) << 7 | (b3 & 0x7f)) + 10`, plus 10 more when the
    footer-present flag bit `0x10` is set.  Second, a stream whose peeked
    block carries the ID3v2 magic (and is at least 10 bytes) yields, once
    the consume of that length succeeds, a `Tag "ID3v2"` part whose end is
    exactly its start plus that synchsafe length — for a file beginning with
    the header, a leading part with `end = 10 + L` (+10 for the footer). -/
theorem C3_synchsafe_length (hdr : List Nat) (s s1 s2 : MP3Stream)
    (h6 : hdr.getD 6 0 < 256) (h7 : hdr.getD 7 0 < 256)
    (h8 : hdr.getD 8 0 < 256) (h9 : hdr.getD 9 0 < 256) :
    (parse_id3v2_header_footer hdr).2.1 =
      (((hdr.getD 6 0 &&& 0x7f) <<< 21) ||| ((hdr.getD 7 0 &&& 0x7f) <<< 14) |||
       ((hdr.getD 8 0 &&& 0x7f) <<< 7) ||| (hdr.getD 9 0 &&& 0x7f)) + 10 +
      (if hdr.getD 5 0 &&& 0x10 ≠ 0 then 10 else 0) ∧
    (s.peek 32 = .ok (hdr, s1) →
     pyStartsWith hdr tagMagic = false →
     pyStartsWith hdr id3Magic = true →
     10 ≤ hdr.length →
     s1.consume_exactly (parse_id3v2_header_footer hdr).2.1 = .ok (true, s2) →
     ∃ p, s.get_file_position false = .ok p ∧
       detect_tags_step s = .ok (s2, some (MPart.tag p
         (p + ((((hdr.getD 6 0 &&& 0x7f) <<< 21) ||| ((hdr.getD 7 0 &&& 0x7f) <<< 14) |||
           ((hdr.getD 8 0 &&& 0x7f) <<< 7) ||| (hdr.getD 9 0 &&& 0x7f)) + 10 +
           (if hdr.getD 5 0 &&& 0x10 ≠ 0 then 10 else 0)))
         "ID3v2" (parse_id3v2_header_footer hdr).2.2))) := by
  have hL : (parse_id3v2_header_footer hdr).2.1 =
      (((hdr.getD 6 0 &&& 0x7f) <<< 21) ||| ((hdr.getD 7 0 &&& 0x7f) <<< 14) |||
       ((hdr.getD 8 0 &&& 0x7f) <<< 7) ||| (hdr.getD 9 0 &&& 0x7f)) + 10 +
      (if hdr.getD 5 0 &&& 0x10 ≠ 0 then 10 else 0) := by
    unfold parse_id3v2_header_footer
    simp only []
    rw [synchsafe_eq _ _ _ _ h7 h8 h9]
    by_cases hf : hdr.getD 5 0 &&& 0x10 ≠ 0
    · rw [if_pos hf, if_pos hf]
    · rw [if_neg hf, if_neg hf, Nat.add_zero]
  refine ⟨hL, ?_⟩
  intro hpeek htag hid3 hlen10 hcons
  rcases hP : parse_id3v2_header_footer hdr with ⟨f, l, e⟩
  rw [hP] at hcons
  simp only [] at hcons
  have hm : matchHeader hdr = some ("ID3v2", 10, l, e) := by
    unfold matchHeader
    rw [if_neg (by simp [htag]),
      if_pos (show pyStartsWith hdr id3Magic = true ∧ 10 ≤ hdr.length from ⟨hid3, hlen10⟩),
      hP]
  obtain ⟨p, hp, hstep⟩ := detect_tags_step_consumed s s1 s2 hdr "ID3v2" 10 l e hpeek hm hcons
  refine ⟨p, hp, ?_⟩
  have hl : l = (((hdr.getD 6 0 &&& 0x7f) <<< 21) ||| ((hdr.getD 7 0 &&& 0x7f) <<< 14) |||
      ((hdr.getD 8 0 &&& 0x7f) <<< 7) ||| (hdr.getD 9 0 &&& 0x7f)) + 10 +
      (if hdr.getD 5 0 &&& 0x10 ≠ 0 then 10 else 0) := by
    rw [← hL, hP]
  rw [← hl]
  exact hstep

/-- Applies C3 at a concrete file, `id3WitData` (10-byte ID3v2 header with
    synchsafe length 5, no footer flag, then 5 content bytes): the parsed
    length is the synchsafe form, detection yields the `Tag "ID3v2"` part
    spanning `[0, 15)`, and the whole scan returns it as the leading part. -/
theorem C3_witness :
    ((parse_id3v2_header_footer id3WitData).2.1 =
      (((id3WitData.getD 6 0 &&& 0x7f) <<< 21) |||
       ((id3WitData.getD 7 0 &&& 0x7f) <<< 14) |||
       ((id3WitData.getD 8 0 &&& 0x7f) <<< 7) ||| (id3WitData.getD 9 0 &&& 0x7f)) + 10 +
      (if id3WitData.getD 5 0 &&& 0x10 ≠ 0 then 10 else 0)) ∧
    (∃ p, id3WitStream.get_file_position false = Except.ok p ∧
      detect_tags_step id3WitStream = Except.ok
        ({ id3WitStreamFed with mad := mad_stream_skip id3WitStreamFed.mad 15 },
          some (MPart.tag p (p + 15) "ID3v2" []))) ∧
    scan_mp3 10 id3WitData id3WitTrace = .ok [MPart.tag 0 15 "ID3v2" []] := by
  have H := C3_synchsafe_length id3WitData id3WitStream id3WitStreamFed
      { id3WitStreamFed with mad := mad_stream_skip id3WitStreamFed.mad 15 }
      (by decide) (by decide) (by decide) (by decide)
  exact ⟨H.1, H.2 (by decide) (by decide) (by decide) (by decide) (by decide), by decide⟩
